import Mathlib

/-!
# Verification of the legal-document intelligence pipeline

Shallow embedding of the core services of the `legal-ai-2.0` backend
(`clause_extraction_service.py`, `risk_analysis_service.py`,
`case_library_service.py`, `legal_citation_parser.py`,
`predictive_analytics_service.py`) and proofs of the specification's
claims about them.

Numeric values computed by the Python code with `float` arithmetic are
modelled with exact rationals (`ℚ`); Python's `round(x, n)` (round half
to even) is modelled exactly on `ℚ`.
-/

namespace LegalAI

/-! ## Python-style rounding on ℚ -/

/-- Round half to even to the nearest integer, as Python's builtin `round`. -/
def roundHalfEven (q : ℚ) : ℤ :=
  let f : ℤ := ⌊q⌋
  let r : ℚ := q - f
  if r < 1/2 then f
  else if 1/2 < r then f + 1
  else if f % 2 = 0 then f else f + 1

/-- Python's `round(x, n)` for `n ≥ 0`, modelled exactly on rationals. -/
def pyRound (n : ℕ) (q : ℚ) : ℚ :=
  (roundHalfEven (q * (10 ^ n : ℕ)) : ℚ) / (10 ^ n : ℕ)

theorem roundHalfEven_sub_le (q : ℚ) : |(roundHalfEven q : ℚ) - q| ≤ 1/2 := by
  unfold roundHalfEven
  have hfl : (0:ℚ) ≤ q - ⌊q⌋ := by
    have := Int.floor_le q
    linarith
  have hfu : q - ⌊q⌋ < 1 := by
    have := Int.lt_floor_add_one q
    linarith
  by_cases h1 : q - (⌊q⌋:ℚ) < 1/2
  · simp only [h1, if_true]
    rw [abs_le]
    constructor <;> linarith
  · simp only [h1, if_false]
    by_cases h2 : (1:ℚ)/2 < q - (⌊q⌋:ℚ)
    · simp only [h2, if_true]
      rw [abs_le]
      push_cast
      constructor <;> linarith
    · simp only [h2, if_false]
      have heq : q - (⌊q⌋:ℚ) = 1/2 := le_antisymm (not_lt.mp h2) (not_lt.mp h1)
      by_cases h3 : (⌊q⌋ : ℤ) % 2 = 0
      · simp only [h3, if_true]
        rw [abs_le]
        constructor <;> linarith
      · simp only [h3, if_false]
        rw [abs_le]
        push_cast
        constructor <;> linarith

theorem pyRound_sub_le (n : ℕ) (q : ℚ) :
    |pyRound n q - q| ≤ 1 / (2 * 10 ^ n) := by
  unfold pyRound
  have hpow : (0:ℚ) < (10 ^ n : ℕ) := by positivity
  have h := roundHalfEven_sub_le (q * (10 ^ n : ℕ))
  have : |(roundHalfEven (q * (10 ^ n : ℕ)) : ℚ) / (10 ^ n : ℕ) - q|
      = |(roundHalfEven (q * (10 ^ n : ℕ)) : ℚ) - q * (10 ^ n : ℕ)| / (10 ^ n : ℕ) := by
    rw [← abs_of_pos hpow, ← abs_div]
    congr 1
    field_simp
    ring
  rw [this]
  rw [div_le_iff₀ hpow]
  calc |(roundHalfEven (q * (10 ^ n : ℕ)) : ℚ) - q * (10 ^ n : ℕ)| ≤ 1/2 := h
    _ ≤ 1 / (2 * 10 ^ n) * (10 ^ n : ℕ) := by
        rw [div_mul_eq_mul_div, le_div_iff₀ (by positivity)]
        push_cast
        ring_nf
        nlinarith [pow_pos (show (0:ℚ) < 10 by norm_num) n]

theorem roundHalfEven_nonneg {q : ℚ} (hq : 0 ≤ q) : 0 ≤ roundHalfEven q := by
  unfold roundHalfEven
  have h0 : (0:ℤ) ≤ ⌊q⌋ := Int.floor_nonneg.mpr hq
  simp only []
  split
  · exact h0
  · split
    · omega
    · split <;> omega

theorem pyRound_nonneg {q : ℚ} (n : ℕ) (hq : 0 ≤ q) : 0 ≤ pyRound n q := by
  unfold pyRound
  have hpow : (0:ℚ) < (10 ^ n : ℕ) := by positivity
  apply div_nonneg _ (le_of_lt hpow)
  exact_mod_cast roundHalfEven_nonneg (by positivity)

/-! ## Outcome prediction (`PredictiveAnalyticsService`)

`_calculate_outcome_probabilities` counts the occurrences of each of the
four known outcome tags among the precedents and divides by the total
number of precedents, rounding each probability to three decimal places.
A precedent whose `outcome` field is `None` (or the empty string, both
falsy in Python) is counted as `"unknown"`: it contributes to the total
but to none of the four buckets.  An empty population yields the fixed
default distribution. -/

/-! ## Python string primitives

Text is modelled as `List Char`.  The inputs of interest are ASCII, so
Python's unicode-aware `str.lower`, `str.strip` and `\s`/`\d` classes
are modelled on ASCII. -/

/-- Python's `\s` class / `str.strip` whitespace, on ASCII. -/
def pyIsSpace (c : Char) : Bool :=
  c = ' ' || c = '\t' || c = '\n' || c = '\r' || c = '\x0b' || c = '\x0c'

/-- Python's `\d` class, on ASCII. -/
def pyIsDigit (c : Char) : Bool := '0' ≤ c && c ≤ '9'

/-- `str.lower` on an ASCII character. -/
def pyLowerChar (c : Char) : Char :=
  if 'A' ≤ c && c ≤ 'Z' then Char.ofNat (c.toNat + 32) else c

/-- `str.lower`. -/
def pyLower (s : List Char) : List Char := s.map pyLowerChar

/-- `str.strip()`: remove leading and trailing whitespace. -/
def pyStrip (s : List Char) : List Char :=
  ((s.dropWhile pyIsSpace).reverse.dropWhile pyIsSpace).reverse

/-- Python's `needle in hay` on strings: contiguous-substring test. -/
def isSubstring (needle : List Char) : List Char → Bool
  | [] => needle.isEmpty
  | c :: t => needle.isPrefixOf (c :: t) || isSubstring needle t

/-- The four-key probability map returned by outcome prediction
(`plaintiff_victory`, `defendant_victory`, `settlement`, `dismissed`). -/
structure OutcomeProbs where
  plaintiffVictory : ℚ
  defendantVictory : ℚ
  settlement : ℚ
  dismissed : ℚ
  deriving DecidableEq, Repr

/-- The list of the map's values, in insertion order of
`_calculate_outcome_probabilities`. -/
def OutcomeProbs.values (m : OutcomeProbs) : List ℚ :=
  [m.plaintiffVictory, m.defendantVictory, m.settlement, m.dismissed]

/-- Sum of the map's values (`sum(adjusted.values())`). -/
def OutcomeProbs.total (m : OutcomeProbs) : ℚ :=
  m.plaintiffVictory + m.defendantVictory + m.settlement + m.dismissed

/-- `precedent.outcome or "unknown"`: Python `or` replaces falsy values
(`None`, `""`) by `"unknown"`. -/
def outcomeOrUnknown : Option String → String
  | none => "unknown"
  | some s => if s = "" then "unknown" else s

/-- `PredictiveAnalyticsService._calculate_outcome_probabilities`,
taking the list of the precedents' `outcome` fields. -/
def calculateOutcomeProbabilities (outcomes : List (Option String)) : OutcomeProbs :=
  if outcomes = [] then
    { plaintiffVictory := 33/100, defendantVictory := 33/100
      settlement := 34/100, dismissed := 0 }
  else
    let tags := outcomes.map outcomeOrUnknown
    let total : ℚ := outcomes.length
    { plaintiffVictory := pyRound 3 ((tags.count "plaintiff_win" : ℚ) / total)
      defendantVictory := pyRound 3 ((tags.count "defendant_win" : ℚ) / total)
      settlement := pyRound 3 ((tags.count "settlement" : ℚ) / total)
      dismissed := pyRound 3 ((tags.count "dismissed" : ℚ) / total) }

/-- `PredictiveAnalyticsService._adjust_for_risk_factors`. -/
def adjustForRiskFactors (m : OutcomeProbs) (riskScore : ℚ) : OutcomeProbs :=
  let riskFactor := (riskScore - 5) / 10
  let adjusted : OutcomeProbs :=
    if 0 < riskFactor then
      { m with settlement := m.settlement + riskFactor * (1/10)
               defendantVictory := m.defendantVictory + riskFactor * (5/100)
               plaintiffVictory := m.plaintiffVictory - riskFactor * (15/100) }
    else
      { m with plaintiffVictory := m.plaintiffVictory + |riskFactor| * (1/10)
               defendantVictory := m.defendantVictory - |riskFactor| * (5/100)
               settlement := m.settlement - |riskFactor| * (5/100) }
  let total := adjusted.total
  { plaintiffVictory := pyRound 3 (adjusted.plaintiffVictory / total)
    defendantVictory := pyRound 3 (adjusted.defendantVictory / total)
    settlement := pyRound 3 (adjusted.settlement / total)
    dismissed := pyRound 3 (adjusted.dismissed / total) }

/-- The four known outcome tags; any other value of the `outcome` column
is counted in the population total but in none of the four buckets. -/
def knownOutcomeTags : List String :=
  ["plaintiff_win", "defendant_win", "settlement", "dismissed"]

theorem count_four_tags_of_all_known (l : List String)
    (h : ∀ t ∈ l, t ∈ knownOutcomeTags) :
    l.count "plaintiff_win" + l.count "defendant_win" + l.count "settlement"
      + l.count "dismissed" = l.length := by
  induction l with
  | nil => simp
  | cons a l ih =>
    have ha := h a (List.mem_cons_self a l)
    have hrest : ∀ t ∈ l, t ∈ knownOutcomeTags := fun t ht => h t (List.mem_cons_of_mem a ht)
    have := ih hrest
    simp only [knownOutcomeTags, List.mem_cons, List.mem_singleton,
      List.not_mem_nil, or_false] at ha
    rcases ha with rfl | rfl | rfl | rfl <;>
      simp_all [List.count_cons] <;> omega

theorem sum4_pyRound3_close (a b c d : ℚ) (h : a + b + c + d = 1) :
    |pyRound 3 a + pyRound 3 b + pyRound 3 c + pyRound 3 d - 1| ≤ 1/500 := by
  have ha := pyRound_sub_le 3 a
  have hb := pyRound_sub_le 3 b
  have hc := pyRound_sub_le 3 c
  have hd := pyRound_sub_le 3 d
  norm_num at ha hb hc hd
  rw [abs_le] at ha hb hc hd ⊢
  constructor <;> linarith

theorem four_div_total_eq_one (a b c d : ℚ) (h : 0 < a + b + c + d) :
    a / (a + b + c + d) + b / (a + b + c + d) + c / (a + b + c + d)
      + d / (a + b + c + d) = 1 := by
  field_simp

theorem adjustForRiskFactors_total_close (m : OutcomeProbs) (riskScore : ℚ)
    (h : 0 < m.total) :
    |(adjustForRiskFactors m riskScore).total - 1| ≤ 1/500 := by
  have key : ∀ a b c d : ℚ, a + b + c + d = m.total →
      |(OutcomeProbs.total
          { plaintiffVictory := pyRound 3 (a / OutcomeProbs.total ⟨a, b, c, d⟩)
            defendantVictory := pyRound 3 (b / OutcomeProbs.total ⟨a, b, c, d⟩)
            settlement := pyRound 3 (c / OutcomeProbs.total ⟨a, b, c, d⟩)
            dismissed := pyRound 3 (d / OutcomeProbs.total ⟨a, b, c, d⟩) }) - 1| ≤ 1/500 := by
    intro a b c d habcd
    have hpos : 0 < a + b + c + d := habcd ▸ h
    simp only [OutcomeProbs.total]
    exact sum4_pyRound3_close _ _ _ _ (four_div_total_eq_one a b c d hpos)
  unfold adjustForRiskFactors
  by_cases hrf : 0 < (riskScore - 5) / 10
  · simp only [hrf, if_true]
    exact key _ _ _ _ (by simp only [OutcomeProbs.total]; ring)
  · simp only [hrf, if_false]
    exact key _ _ _ _ (by simp only [OutcomeProbs.total]; ring)

/-- C1 as stated is false on two concrete inputs: a population of three
precedents with the three distinct outcomes `plaintiff_win`,
`defendant_win`, `settlement` yields values `0.333, 0.333, 0.333, 0.0`
whose sum `0.999` misses `1.0` by `10⁻³ > 10⁻⁶`; and a population of one
`settlement` precedent adjusted with document risk score `10` yields a
negative `plaintiff_victory` value (`-0.075`). -/
theorem outcomeProbabilities_claim_false :
    ¬ (|(calculateOutcomeProbabilities
          [some "plaintiff_win", some "defendant_win", some "settlement"]).total - 1|
        < 1/1000000) ∧
    (adjustForRiskFactors (calculateOutcomeProbabilities [some "settlement"]) 10).plaintiffVictory
      < 0 := by
  constructor
  · with_unfolding_all decide
  · with_unfolding_all decide

/-- C1 (amended): values of the outcome-probability map are non-negative
before risk adjustment; because each value is rounded to three decimal
places, the values of the unadjusted map sum to `1.0` only within
`2·10⁻³` (not `10⁻⁶`), and only when every precedent outcome is one of
the four known tags; after risk adjustment the values again sum to `1.0`
within `2·10⁻³` whenever the unadjusted values have positive sum (but
may individually be negative). -/
theorem outcomeProbabilities_normalization
    (outcomes : List (Option String)) (riskScore : ℚ) :
    (∀ v ∈ (calculateOutcomeProbabilities outcomes).values, 0 ≤ v) ∧
    ((∀ o ∈ outcomes, outcomeOrUnknown o ∈ knownOutcomeTags) →
      |(calculateOutcomeProbabilities outcomes).total - 1| ≤ 1/500) ∧
    (0 < (calculateOutcomeProbabilities outcomes).total →
      |(adjustForRiskFactors (calculateOutcomeProbabilities outcomes) riskScore).total - 1|
        ≤ 1/500) := by
  refine ⟨?_, ?_, adjustForRiskFactors_total_close _ riskScore⟩
  · intro v hv
    unfold calculateOutcomeProbabilities at hv
    by_cases hempty : outcomes = []
    · simp only [hempty, if_true, OutcomeProbs.values, List.mem_cons,
        List.not_mem_nil, or_false] at hv
      rcases hv with rfl | rfl | rfl | rfl <;> norm_num
    · simp only [hempty, if_false, OutcomeProbs.values, List.mem_cons,
        List.not_mem_nil, or_false] at hv
      rcases hv with rfl | rfl | rfl | rfl <;>
        exact pyRound_nonneg 3 (by positivity)
  · intro hknown
    unfold calculateOutcomeProbabilities
    by_cases hempty : outcomes = []
    · simp only [hempty, if_true, OutcomeProbs.total]
      norm_num
    · simp only [hempty, if_false, OutcomeProbs.total]
      apply sum4_pyRound3_close
      have hn : (0:ℚ) < outcomes.length := by
        have : outcomes.length ≠ 0 := fun h => hempty (List.length_eq_zero.mp h)
        positivity
      have hcount := count_four_tags_of_all_known (outcomes.map outcomeOrUnknown)
        (by intro t ht
            rcases List.mem_map.mp ht with ⟨o, ho, rfl⟩
            exact hknown o ho)
      rw [List.length_map] at hcount
      have : ((outcomes.map outcomeOrUnknown).count "plaintiff_win" : ℚ)
          + ((outcomes.map outcomeOrUnknown).count "defendant_win" : ℚ)
          + ((outcomes.map outcomeOrUnknown).count "settlement" : ℚ)
          + ((outcomes.map outcomeOrUnknown).count "dismissed" : ℚ)
          = (outcomes.length : ℚ) := by exact_mod_cast congrArg Nat.cast hcount
      field_simp
      linarith

/-- Witness instantiating `outcomeProbabilities_normalization` on a
concrete two-precedent population with risk score 10. -/
theorem outcomeProbabilities_normalization_witness :
    (∀ v ∈ (calculateOutcomeProbabilities [some "settlement", some "plaintiff_win"]).values,
        0 ≤ v) ∧
    |(calculateOutcomeProbabilities [some "settlement", some "plaintiff_win"]).total - 1|
      ≤ 1/500 ∧
    |(adjustForRiskFactors
        (calculateOutcomeProbabilities [some "settlement", some "plaintiff_win"]) 10).total - 1|
      ≤ 1/500 :=
  ⟨(outcomeProbabilities_normalization [some "settlement", some "plaintiff_win"] 10).1,
   (outcomeProbabilities_normalization [some "settlement", some "plaintiff_win"] 10).2.1
     (by decide),
   (outcomeProbabilities_normalization [some "settlement", some "plaintiff_win"] 10).2.2
     (by with_unfolding_all decide)⟩

/-! ## Clause extraction (`ClauseExtractionService`)

The section-header regular expression
`(?:^|\n)\s*(\d+(?:\.\d+)*)\s*[\.\)]\s*([^\n]+?)(?:\s*\n|$)` (with
`re.MULTILINE`) and the paragraph separator
`\n\s*\n|\n(?=\s{4,})` are embedded as explicit backtracking matchers
with Python's leftmost / greedy-first / lazy-first priorities. -/

/-- Position of the last `'\n'` in a list, if any. -/
def lastNewline : List Char → Option Nat
  | [] => none
  | c :: t =>
    match lastNewline t with
    | some j => some (j + 1)
    | none => if c = '\n' then some 0 else none

/-- Match `(?:\s*\n|$)` at the head of `s` (with `re.MULTILINE`, `$`
also matches just before a `'\n'`, which the first branch subsumes).
The greedy `\s*` backtracks to the last newline of the leading
whitespace run.  Returns the number of characters consumed. -/
def sectionTailMatch (s : List Char) : Option Nat :=
  match lastNewline (s.takeWhile pyIsSpace) with
  | some j => some (j + 1)
  | none => if s.isEmpty then some 0 else none

/-- Match the lazy group `([^\n]+?)(?:\s*\n|$)` at the head of `s`:
the shortest non-empty newline-free prefix whose remainder matches the
tail.  Returns the group and the characters consumed. -/
def titleSearch : List Char → Option (List Char × Nat)
  | [] => none
  | c :: t =>
    if c = '\n' then none
    else
      match sectionTailMatch t with
      | some j => some ([c], 1 + j)
      | none =>
        match titleSearch t with
        | some (title, consumed) => some (c :: title, 1 + consumed)
        | none => none

/-- Match `\s*([^\n]+?)(?:\s*\n|$)` at the head of `s`: the greedy
`\s*` tries `k` whitespace characters, longest first. -/
def wsTitleTry (s : List Char) : Nat → Option (List Char × Nat)
  | 0 => titleSearch s
  | k + 1 =>
    match titleSearch (s.drop (k + 1)) with
    | some (t, c) => some (t, (k + 1) + c)
    | none => wsTitleTry s k

/-- Match `\s*([^\n]+?)(?:\s*\n|$)` at the head of `s`. -/
def wsThenTitle (s : List Char) : Option (List Char × Nat) :=
  wsTitleTry s (s.takeWhile pyIsSpace).length

/-- Candidate matches of the greedy `(?:\.\d+)*`, longest first:
pairs of consumed characters and remainder. -/
def dotGroupCandidates (s : List Char) : List (List Char × List Char) :=
  match s with
  | '.' :: t =>
    let ds := t.takeWhile pyIsDigit
    if ds = [] then [([], s)]
    else
      ((dotGroupCandidates (t.drop ds.length)).map
        (fun p => ('.' :: (ds ++ p.1), p.2))) ++ [([], s)]
  | _ => [([], s)]
  termination_by s.length
  decreasing_by
    simp only [List.length_drop, List.length_cons]
    omega

/-- Attempt the section-header pattern at one position.  `lineStart`
says whether `^` matches here (position 0 or preceded by `'\n'`).
Returns `(group1, group2, consumed)`. -/
def matchSectionAt (lineStart : Bool) (s : List Char) :
    Option (List Char × List Char × Nat) :=
  -- (?:^|\n): when `^` applies at a position holding `'\n'`, consuming
  -- the newline in the second branch reaches the same state, so the
  -- branches need no further backtracking.
  let a : Option (List Char × Nat) :=
    if lineStart then some (s, 0)
    else
      match s with
      | '\n' :: t => some (t, 1)
      | _ => none
  match a with
  | none => none
  | some (s0, ca) =>
    let ws1 := (s0.takeWhile pyIsSpace).length
    let s1 := s0.drop ws1
    let ds := s1.takeWhile pyIsDigit
    if ds = [] then none
    else
      let s2 := s1.drop ds.length
      (dotGroupCandidates s2).findSome? fun p =>
        let dotChars := p.1
        let s3 := p.2
        let ws2 := (s3.takeWhile pyIsSpace).length
        match s3.drop ws2 with
        | [] => none
        | c :: s5 =>
          if c = '.' || c = ')' then
            (wsThenTitle s5).map fun q =>
              (ds ++ dotChars, q.1,
                ca + ws1 + ds.length + dotChars.length + ws2 + 1 + q.2)
          else none

/-- `re.finditer` of the section pattern: returns
`(group1, group2, matchStart, matchEnd)` tuples.  `fuel` bounds the
scan (every step consumes at least one character). -/
def sectionScan : Nat → Bool → List Char → Nat →
    List (List Char × List Char × Nat × Nat)
  | 0, _, _, _ => []
  | fuel + 1, ls, s, pos =>
    match matchSectionAt ls s with
    | some (num, title, consumed) =>
      let ls' : Bool :=
        match (s.take consumed).getLast? with
        | some c => c = '\n'
        | none => ls
      (num, title, pos, pos + consumed) ::
        sectionScan fuel ls' (s.drop consumed) (pos + consumed)
    | none =>
      match s with
      | [] => []
      | c :: t => sectionScan fuel (c = '\n') t (pos + 1)

/-- A section dictionary of
`ClauseExtractionService._identify_sections`. -/
structure PySection where
  number : Option (List Char)
  title : Option (List Char)
  text : List Char
  startPos : Nat
  endPos : Nat
  deriving DecidableEq, Repr

/-- `ClauseExtractionService._identify_sections`. -/
def identifySections (text : List Char) : List PySection :=
  let ms := sectionScan (text.length + 1) true text 0
  let secs := ms.enum.map fun (i, m) =>
    let endPos :=
      match ms.get? (i + 1) with
      | some m2 => m2.2.2.1
      | none => text.length
    { number := some m.1
      title := some (pyStrip m.2.1)
      text := pyStrip ((text.drop m.2.2.2).take (endPos - m.2.2.2))
      startPos := m.2.2.2
      endPos := endPos : PySection }
  if secs = [] then
    [{ number := none, title := none, text := text, startPos := 0,
       endPos := text.length }]
  else secs

/-- `re.split(r'\n\s*\n|\n(?=\s{4,})', text)`: split pieces, in order.
`acc` is the current piece, reversed. -/
def paraSplitScan : Nat → List Char → List Char → List (List Char)
  | 0, acc, rest => [acc.reverse ++ rest]
  | fuel + 1, acc, s =>
    match s with
    | [] => [acc.reverse]
    | c :: t =>
      if c = '\n' then
        match lastNewline (t.takeWhile pyIsSpace) with
        | some j => acc.reverse :: paraSplitScan fuel [] (t.drop (j + 1))
        | none =>
          if 4 ≤ (t.takeWhile pyIsSpace).length then
            acc.reverse :: paraSplitScan fuel [] t
          else paraSplitScan fuel (c :: acc) t
      else paraSplitScan fuel (c :: acc) t

/-- `ClauseExtractionService._split_into_paragraphs`. -/
def splitIntoParagraphs (text : List Char) : List (List Char) :=
  ((paraSplitScan (text.length + 1) [] text).map pyStrip).filter (· ≠ [])

/-- `ClauseType` (closed enumeration of the Python `ClauseType` enum). -/
inductive ClauseType where
  | indemnification
  | liabilityLimitation
  | confidentiality
  | termination
  | paymentTerms
  | intellectualProperty
  | disputeResolution
  | governingLaw
  | forceMajeure
  | warranty
  | nonCompete
  | assignment
  | notice
  | severability
  | entireAgreement
  | amendment
  | arbitration
  | jurisdiction
  | damages
  | insurance
  | representations
  | covenants
  | automaticRenewal
  | changeOfControl
  | dataProtection
  | unknown
  deriving DecidableEq, BEq, Repr

/-- `ClauseExtractionService.CLAUSE_PATTERNS`: for each clause type in
source (insertion) order, its keyword list and risk-keyword list. -/
def clausePatterns : List (ClauseType × List String × List String) :=
  [ (ClauseType.indemnification,
      ["indemnify", "indemnification", "hold harmless", "defend",
       "indemnitor", "indemnitee", "indemnified party"],
      ["any and all", "unlimited", "consequential", "indirect",
       "sole discretion", "irrespective"]),
    (ClauseType.liabilityLimitation,
      ["limitation of liability", "liability cap", "limited to",
       "in no event shall", "maximum liability", "aggregate liability"],
      ["no limit", "unlimited liability", "consequential damages",
       "punitive damages", "indirect damages"]),
    (ClauseType.confidentiality,
      ["confidential", "confidentiality", "non-disclosure", "proprietary",
       "trade secret", "confidential information", "NDA"],
      ["perpetual", "indefinite", "no limitation", "broad definition",
       "all information"]),
    (ClauseType.termination,
      ["termination", "terminate", "cancellation", "cancel",
       "termination for cause", "termination for convenience",
       "notice of termination", "early termination"],
      ["without cause", "at any time", "without notice",
       "sole discretion", "no refund", "immediate termination"]),
    (ClauseType.paymentTerms,
      ["payment", "fees", "compensation", "price", "invoice",
       "payment terms", "due date", "late payment"],
      ["non-refundable", "advance payment", "late fees",
       "interest", "acceleration", "price increase"]),
    (ClauseType.intellectualProperty,
      ["intellectual property", "IP", "copyright", "trademark",
       "patent", "trade secret", "ownership", "license"],
      ["assign", "work for hire", "all rights", "perpetual",
       "exclusive", "irrevocable", "worldwide"]),
    (ClauseType.disputeResolution,
      ["dispute resolution", "dispute", "mediation", "arbitration",
       "litigation", "negotiation", "escalation"],
      ["binding arbitration", "waive right", "class action waiver",
       "jury trial waiver", "exclusive jurisdiction"]),
    (ClauseType.governingLaw,
      ["governing law", "applicable law", "governed by",
       "laws of", "jurisdiction", "venue"],
      ["foreign jurisdiction", "inconvenient forum", "exclusive venue"]),
    (ClauseType.forceMajeure,
      ["force majeure", "act of god", "beyond control",
       "unforeseeable", "excused performance"],
      ["no force majeure", "limited relief", "short notice period"]),
    (ClauseType.warranty,
      ["warranty", "warrant", "guarantee", "representation",
       "as-is", "merchantability", "fitness for purpose"],
      ["no warranty", "as-is", "disclaimer", "limited warranty",
       "breach of warranty"]),
    (ClauseType.nonCompete,
      ["non-compete", "non-competition", "restrictive covenant",
       "competitive activity", "refrain from competing"],
      ["broad scope", "long duration", "worldwide", "any capacity",
       "indefinite"]),
    (ClauseType.assignment,
      ["assignment", "transfer", "assignee", "successor",
       "delegate", "subcontract"],
      ["freely assign", "without consent", "automatic assignment",
       "change of control"]),
    (ClauseType.arbitration,
      ["arbitration", "arbitrator", "AAA", "JAMS", "arbitral",
       "binding arbitration", "arbitration clause"],
      ["mandatory arbitration", "waive jury", "individual basis only",
       "no class action", "expedited arbitration"]),
    (ClauseType.automaticRenewal,
      ["automatic renewal", "auto-renew", "automatically renew",
       "successive terms", "renewal term"],
      ["automatic", "unless notice", "short notice period",
       "perpetual renewal"]),
    (ClauseType.changeOfControl,
      ["change of control", "change in control", "acquisition",
       "merger", "sale of business"],
      ["automatic termination", "immediate payment", "accelerated vesting"]),
    (ClauseType.dataProtection,
      ["data protection", "privacy", "GDPR", "personal data",
       "data processing", "data security", "CCPA"],
      ["unlimited use", "no restrictions", "data breach", "third party access"]) ]

/-- `ClauseExtractionService.classify_clause`: keyword-count scoring
normalized by keyword-set size, with a 1.5× boost when at least two
keywords matched; the first type (in table order) with a strictly
higher score wins; the final confidence is clamped to at most 1. -/
def classifyClause (text : List Char) : ClauseType × ℚ × List String :=
  let lower := pyLower text
  let best := clausePatterns.foldl
    (fun acc entry =>
      let keywords := entry.2.1
      let matched := keywords.filter fun kw => isSubstring (pyLower kw.data) lower
      if keywords.isEmpty then acc
      else
        let normalized : ℚ := (matched.length : ℚ) / (keywords.length : ℚ)
        let normalized := if 2 ≤ matched.length then normalized * (3/2) else normalized
        if acc.2.1 < normalized then (entry.1, normalized, matched) else acc)
    (ClauseType.unknown, (0 : ℚ), ([] : List String))
  (best.1, min best.2.1 1, best.2.2)

/-- `ClauseExtractionService.identify_risk_indicators`. -/
def identifyRiskIndicators (text : List Char) (ctype : ClauseType) : List String :=
  match clausePatterns.find? (fun e => e.1 == ctype) with
  | some entry =>
    let lower := pyLower text
    entry.2.2.filter fun kw => isSubstring (pyLower kw.data) lower
  | none => []

/-- An extracted clause (the Python `ExtractedClause` dataclass). -/
structure ExtractedClause where
  clauseType : ClauseType
  clauseText : List Char
  startPosition : Nat
  endPosition : Nat
  sectionNumber : Option (List Char)
  sectionTitle : Option (List Char)
  confidence : ℚ
  keywordsMatched : List String
  riskIndicators : List String
  deriving DecidableEq, Repr

/-- The paragraph loop of
`ClauseExtractionService._extract_clauses_from_section`. -/
def clausesFromParagraphs (number title : Option (List Char)) :
    List (List Char) → Nat → List ExtractedClause
  | [], _ => []
  | p :: rest, pos =>
    if (pyStrip p).length < 50 then clausesFromParagraphs number title rest (pos + p.length)
    else
      let r := classifyClause p
      if r.1 ≠ ClauseType.unknown then
        { clauseType := r.1
          clauseText := pyStrip p
          startPosition := pos
          endPosition := pos + p.length
          sectionNumber := number
          sectionTitle := title
          confidence := r.2.1
          keywordsMatched := r.2.2
          riskIndicators := identifyRiskIndicators p r.1 } ::
          clausesFromParagraphs number title rest (pos + p.length)
      else clausesFromParagraphs number title rest (pos + p.length)

/-- `ClauseExtractionService._extract_clauses_from_section`. -/
def extractClausesFromSection (sectionText : List Char) (sectionStart : Nat)
    (number title : Option (List Char)) : List ExtractedClause :=
  clausesFromParagraphs number title (splitIntoParagraphs sectionText) sectionStart

/-- `ClauseExtractionService.extract_clauses` (the Python default for
`min_confidence` is `0.5`). -/
def extractClauses (text : List Char) (minConfidence : ℚ) : List ExtractedClause :=
  let sections := identifySections text
  let clauses := (sections.map fun sec =>
    extractClausesFromSection sec.text sec.startPos sec.number sec.title).flatten
  clauses.filter fun c => minConfidence ≤ c.confidence

/-- The input document of spec scenario 1. -/
def scenario1Text : String :=
  "1. INDEMNIFICATION\nThe Seller shall indemnify and hold harmless the Buyer from any and all claims."

/-- A 60-character paragraph matching no clause keyword: its best
classification score is 0, so it is tagged `unknown`. -/
def noKeywordText : String :=
  "zzzz zzzz zzzz zzzz zzzz zzzz zzzz zzzz zzzz zzzz zzzz zzzz"

/-! ### C5: scenario 1 -/

set_option maxRecDepth 100000

/-- C5 as stated is false: the scenario-1 clause is classified with
confidence `3/7 ≈ 0.43`, which is below the default `min_confidence`
of `0.5`, so `extract_clauses` run with its default threshold returns
no clauses at all for the scenario input. -/
theorem scenario1_claim_false :
    extractClauses scenario1Text.data (1/2) = [] := by
  with_unfolding_all decide

/-- C5 (amended): when extraction is run with a confidence threshold
that admits the clause — e.g. the `0.3` used by the repository's own
tests — the scenario-1 input yields exactly one clause, of type
`indemnification`, with confidence `3/7 > 0.3`, whose risk indicators
contain `"any and all"`; at the default threshold `0.5` (see the
counterexample) the clause is filtered out. -/
theorem scenario1_extraction :
    (extractClauses scenario1Text.data (3/10)).length = 1 ∧
    (extractClauses scenario1Text.data (3/10)).map
        (fun c => (c.clauseType, c.confidence, c.riskIndicators)) =
      [(ClauseType.indemnification, 3/7, ["any and all"])] ∧
    (3/10 : ℚ) < 3/7 := by
  refine ⟨?_, ?_, by norm_num⟩
  · with_unfolding_all decide
  · with_unfolding_all decide

/-! ### C6: `unknown`-tagged paragraphs -/

/-- C6 as stated is false: a paragraph of 60 keyword-free characters is
tagged `unknown` (best score 0), yet extraction with `minConfidence = 0`
still drops it — `_extract_clauses_from_section` discards `unknown`
paragraphs unconditionally, before the confidence filter runs. -/
theorem unknown_kept_claim_false :
    (classifyClause noKeywordText.data).1 = ClauseType.unknown ∧
    50 ≤ noKeywordText.data.length ∧
    extractClauses noKeywordText.data 0 = [] := by
  refine ⟨?_, ?_, ?_⟩ <;> with_unfolding_all decide

theorem clausesFromParagraphs_no_unknown (number title : Option (List Char)) :
    ∀ (ps : List (List Char)) (pos : Nat) (c : ExtractedClause),
      c ∈ clausesFromParagraphs number title ps pos →
        c.clauseType ≠ ClauseType.unknown := by
  intro ps
  induction ps with
  | nil =>
    intro pos c hc
    simp [clausesFromParagraphs] at hc
  | cons p rest ih =>
    intro pos c hc
    unfold clausesFromParagraphs at hc
    split at hc
    · exact ih _ c hc
    · simp only [] at hc
      split at hc
      · rcases List.mem_cons.mp hc with rfl | h
        · simpa using ‹(classifyClause p).1 ≠ ClauseType.unknown›
        · exact ih _ c h
      · exact ih _ c hc

/-- C6 (amended): paragraphs whose best classification score is 0 are
tagged `unknown` and dropped unconditionally — for every document text
and every `minConfidence` (including 0), `extract_clauses` never
returns a clause tagged `unknown`. -/
theorem extractClauses_no_unknown (text : List Char) (minConfidence : ℚ) :
    ∀ c ∈ extractClauses text minConfidence, c.clauseType ≠ ClauseType.unknown := by
  intro c hc
  unfold extractClauses at hc
  simp only [List.mem_filter] at hc
  rcases hc with ⟨hmem, _⟩
  simp only [List.mem_flatten, List.mem_map] at hmem
  rcases hmem with ⟨l, ⟨sec, hsec, rfl⟩, hcl⟩
  unfold extractClausesFromSection at hcl
  exact clausesFromParagraphs_no_unknown _ _ _ _ c hcl

/-- The single clause extracted from the scenario-1 input at
threshold `0.3`. -/
def scenario1Clause : ExtractedClause :=
  { clauseType := ClauseType.indemnification
    clauseText :=
      ("The Seller shall indemnify and hold harmless the Buyer " ++
        "from any and all claims.").data
    startPosition := 19
    endPosition := 98
    sectionNumber := some "1".data
    sectionTitle := some "INDEMNIFICATION".data
    confidence := 3/7
    keywordsMatched := ["indemnify", "hold harmless"]
    riskIndicators := ["any and all"] }

/-- Witness instantiating `extractClauses_no_unknown` on the concrete
clause extracted from the scenario-1 document. -/
theorem extractClauses_no_unknown_witness :
    scenario1Clause.clauseType ≠ ClauseType.unknown :=
  extractClauses_no_unknown scenario1Text.data (3/10) scenario1Clause
    (by with_unfolding_all decide)

/-! ## Risk scoring (`RiskAnalysisService`) -/

/-- Risk level classifications (`RiskLevel` string constants). -/
inductive RiskLevel where
  | critical
  | high
  | medium
  | low
  | minimal
  deriving DecidableEq, BEq, Repr

/-- `RiskAnalysisService.CLAUSE_RISK_WEIGHTS` (0–10 scale). -/
def clauseRiskWeights : List (ClauseType × ℚ) :=
  [ (ClauseType.indemnification, 17/2),
    (ClauseType.liabilityLimitation, 7),
    (ClauseType.arbitration, 13/2),
    (ClauseType.nonCompete, 15/2),
    (ClauseType.intellectualProperty, 8),
    (ClauseType.automaticRenewal, 6),
    (ClauseType.changeOfControl, 7),
    (ClauseType.termination, 11/2),
    (ClauseType.paymentTerms, 6),
    (ClauseType.confidentiality, 5),
    (ClauseType.warranty, 11/2),
    (ClauseType.disputeResolution, 9/2),
    (ClauseType.dataProtection, 15/2),
    (ClauseType.assignment, 4),
    (ClauseType.governingLaw, 7/2),
    (ClauseType.forceMajeure, 4),
    (ClauseType.notice, 2),
    (ClauseType.severability, 3/2),
    (ClauseType.entireAgreement, 3/2),
    (ClauseType.amendment, 3) ]

/-- `CLAUSE_RISK_WEIGHTS.get(clause.clause_type, 3.0)`. -/
def clauseRiskWeight (t : ClauseType) : ℚ :=
  match clauseRiskWeights.find? (fun e => e.1 == t) with
  | some e => e.2
  | none => 3

/-- `RiskAnalysisService._calculate_risk_level`. -/
def calculateRiskLevel (riskScore : ℚ) : RiskLevel :=
  if 8 ≤ riskScore then RiskLevel.critical
  else if 6 ≤ riskScore then RiskLevel.high
  else if 4 ≤ riskScore then RiskLevel.medium
  else if 2 ≤ riskScore then RiskLevel.low
  else RiskLevel.minimal

/-- The per-clause analysis dictionary returned by
`RiskAnalysisService._analyze_clause_risk`. -/
structure ClauseAnalysis where
  clauseType : ClauseType
  clauseText : List Char
  fullTextLength : Nat
  riskScore : ℚ
  riskLevel : RiskLevel
  baseRisk : ℚ
  riskIndicators : List String
  riskIndicatorCount : Nat
  confidence : ℚ
  sectionNumber : Option (List Char)
  sectionTitle : Option (List Char)
  keywordsMatched : List String
  deriving DecidableEq, Repr

/-- `RiskAnalysisService._analyze_clause_risk`. -/
def analyzeClauseRisk (clause : ExtractedClause) : ClauseAnalysis :=
  let baseRisk := clauseRiskWeight clause.clauseType
  let riskIndicatorPenalty : ℚ := (clause.riskIndicators.length : ℚ) * (1/2)
  let totalRisk := min (baseRisk + riskIndicatorPenalty) 10
  let confidenceAdjustedRisk := totalRisk * clause.confidence
  { clauseType := clause.clauseType
    clauseText :=
      if 200 < clause.clauseText.length then clause.clauseText.take 200 ++ "...".data
      else clause.clauseText
    fullTextLength := clause.clauseText.length
    riskScore := pyRound 2 confidenceAdjustedRisk
    riskLevel := calculateRiskLevel confidenceAdjustedRisk
    baseRisk := pyRound 2 baseRisk
    riskIndicators := clause.riskIndicators
    riskIndicatorCount := clause.riskIndicators.length
    confidence := pyRound 2 clause.confidence
    sectionNumber := clause.sectionNumber
    sectionTitle := clause.sectionTitle
    keywordsMatched := clause.keywordsMatched }

/-- A recommendation dictionary. -/
structure Recommendation where
  priority : String
  category : String
  recommendation : String
  deriving DecidableEq, Repr

/-- A single-quote character, for Python `repr` of strings. -/
def pySQuote : String := String.singleton (Char.ofNat 39)

/-- Python `str(list_of_strings)`: `repr` of a list of plain strings. -/
def pyReprStrList (l : List String) : String :=
  "[" ++ String.intercalate ", " (l.map fun s => pySQuote ++ s ++ pySQuote) ++ "]"

/-- `"needle" in str(c.get("risk_indicators", [])).lower()`. -/
def riskIndicatorsContain (indicators : List String) (needle : String) : Bool :=
  isSubstring needle.data (pyLower (pyReprStrList indicators).data)

/-- The fallback recommendation emitted when no rule fires. -/
def stdReviewRecommendation : Recommendation :=
  { priority := "low", category := "general"
    recommendation :=
      "Standard contract review recommended. No critical risk factors identified." }

/-- `RiskAnalysisService._generate_recommendations`. -/
def generateRecommendations (clauses : List ExtractedClause)
    (clauseAnalyses : List ClauseAnalysis)
    (highRiskClauses : List ClauseAnalysis) : List Recommendation :=
  let recs0 : List Recommendation :=
    if highRiskClauses.isEmpty then []
    else
      [{ priority := "high", category := "general"
         recommendation := "Document contains " ++ toString highRiskClauses.length ++
           " high-risk clause(s). Attorney review strongly recommended before execution." }]
  let present := fun (t : ClauseType) => clauses.any fun c => c.clauseType == t
  let recs1 := recs0 ++
    (if present ClauseType.indemnification then
      let indemnityClauses := clauseAnalyses.filter
        fun c => c.clauseType == ClauseType.indemnification
      if indemnityClauses.any
          (fun c => c.riskLevel == RiskLevel.critical || c.riskLevel == RiskLevel.high) then
        [{ priority := "critical", category := "indemnification"
           recommendation := "Indemnification clause requires careful review. " ++
             "Consider negotiating caps on indemnity obligations and excluding " ++
             "consequential damages." }]
      else []
    else [])
  let recs2 := recs1 ++
    (if present ClauseType.liabilityLimitation then
      let liabilityClauses := clauseAnalyses.filter
        fun c => c.clauseType == ClauseType.liabilityLimitation
      if liabilityClauses.any (fun c => riskIndicatorsContain c.riskIndicators "no limit") then
        [{ priority := "high", category := "liability"
           recommendation := "Liability limitation clause may be insufficient. " ++
             "Negotiate specific cap amounts and exclusions." }]
      else []
    else [])
  let recs3 := recs2 ++
    (if present ClauseType.automaticRenewal then
      [{ priority := "medium", category := "termination"
         recommendation := "Automatic renewal clause detected. Set calendar reminders " ++
           "for notice periods to avoid unintended renewal." }]
    else [])
  let recs4 := recs3 ++
    (if present ClauseType.nonCompete then
      let nonCompeteClauses := clauseAnalyses.filter
        fun c => c.clauseType == ClauseType.nonCompete
      if nonCompeteClauses.any (fun c => riskIndicatorsContain c.riskIndicators "broad scope") then
        [{ priority := "high", category := "restrictions"
           recommendation := "Non-compete clause appears overly broad. Consider " ++
             "negotiating geographic and temporal limitations." }]
      else []
    else [])
  let recs5 := recs4 ++
    (if present ClauseType.dataProtection then
      [{ priority := "medium", category := "compliance"
         recommendation := "Ensure data protection obligations comply with GDPR, CCPA, " ++
           "and other applicable privacy laws." }]
    else [])
  if recs5.isEmpty then [stdReviewRecommendation] else recs5

/-- The precedent-independent fields of the report returned by
`RiskAnalysisService.analyze_document_risk`. -/
structure DocumentRiskResult where
  overallRiskScore : ℚ
  overallRiskLevel : RiskLevel
  totalClausesAnalyzed : Nat
  highRiskClauseCount : Nat
  clauseAnalyses : List ClauseAnalysis
  recommendations : List Recommendation
  deriving DecidableEq, Repr

/-- `RiskAnalysisService.analyze_document_risk`: the pure computation
on the extracted clauses (`extract_clauses` is called with its default
`min_confidence = 0.5`; the precedent search only populates the
separate `precedents` field and never alters these values). -/
def analyzeDocumentRisk (documentText : List Char) : DocumentRiskResult :=
  let clauses := extractClauses documentText (1/2)
  let clauseAnalyses := clauses.map analyzeClauseRisk
  let totalRiskScore := (clauseAnalyses.map (fun a => a.riskScore)).foldl (· + ·) 0
  let highRiskClauses := clauseAnalyses.filter
    fun a => a.riskLevel == RiskLevel.critical || a.riskLevel == RiskLevel.high
  let averageRisk : ℚ :=
    if clauses.isEmpty then 0 else totalRiskScore / (clauses.length : ℚ)
  let averageRisk :=
    if highRiskClauses.isEmpty then averageRisk
    else min (averageRisk + min ((highRiskClauses.length : ℚ) * (1/2)) 3) 10
  { overallRiskScore := pyRound 2 averageRisk
    overallRiskLevel := calculateRiskLevel averageRisk
    totalClausesAnalyzed := clauses.length
    highRiskClauseCount := highRiskClauses.length
    clauseAnalyses := clauseAnalyses
    recommendations := generateRecommendations clauses clauseAnalyses highRiskClauses }

/-! ### C2: zero-clause documents -/

/-- C2 as stated is false at the concrete input `""` (which extracts
zero clauses): the risk assessment does return `overallScore = 0` and
`overallLevel = minimal`, but the recommendations list is not empty —
the no-rule-fired fallback emits the single low-priority
standard-review recommendation. -/
theorem zeroClause_claim_false :
    (analyzeDocumentRisk "".data).overallRiskScore = 0 ∧
    (analyzeDocumentRisk "".data).overallRiskLevel = RiskLevel.minimal ∧
    (analyzeDocumentRisk "".data).recommendations ≠ [] := by
  refine ⟨?_, ?_, ?_⟩ <;> with_unfolding_all decide

/-- C2 (amended): a document whose clause extraction yields zero
clauses produces `overallScore = 0`, `overallLevel = minimal`, and a
recommendations list holding exactly the single low-priority
standard-review recommendation (never the empty list). -/
theorem zeroClause_assessment (documentText : List Char)
    (h : extractClauses documentText (1/2) = []) :
    (analyzeDocumentRisk documentText).overallRiskScore = 0 ∧
    (analyzeDocumentRisk documentText).overallRiskLevel = RiskLevel.minimal ∧
    (analyzeDocumentRisk documentText).recommendations = [stdReviewRecommendation] := by
  unfold analyzeDocumentRisk
  rw [h]
  refine ⟨?_, ?_, ?_⟩ <;> with_unfolding_all decide

/-- Witness instantiating `zeroClause_assessment` at the empty
document. -/
theorem zeroClause_assessment_witness :
    (analyzeDocumentRisk "".data).overallRiskScore = 0 ∧
    (analyzeDocumentRisk "".data).overallRiskLevel = RiskLevel.minimal ∧
    (analyzeDocumentRisk "".data).recommendations = [stdReviewRecommendation] :=
  zeroClause_assessment "".data (by with_unfolding_all decide)

/-! ### C3: per-clause risk scoring -/

/-- A clause whose confidence `3/7` makes the rounded stored score
differ from the exact formula value. -/
def oddConfidenceClause : ExtractedClause :=
  { clauseType := ClauseType.indemnification
    clauseText := []
    startPosition := 0
    endPosition := 0
    sectionNumber := none
    sectionTitle := none
    confidence := 3/7
    keywordsMatched := []
    riskIndicators := [] }

/-- C3 as stated is false at a concrete clause: for an indemnification
clause with no risk indicators and confidence `3/7`, the formula gives
`min(8.5 + 0, 10) · 3/7 = 51/14 ≈ 3.642857`, but the stored per-clause
`risk_score` is the two-decimal rounding `3.64 = 91/25`. -/
theorem clauseRiskScore_claim_false :
    (analyzeClauseRisk oddConfidenceClause).riskScore = 91/25 ∧
    (analyzeClauseRisk oddConfidenceClause).riskScore ≠
      min (clauseRiskWeight ClauseType.indemnification
        + ((0:ℕ) : ℚ) * (1/2)) 10 * (3/7) := by
  constructor <;> with_unfolding_all decide

/-- C3 (amended): the stored per-clause `risk_score` equals
`min(baseRiskWeight[type] + 0.5·|riskIndicators|, 10) · confidence`
rounded to two decimal places, and the clause's risk level is derived
from the unrounded product by the fixed thresholds
(critical ≥ 8, high ≥ 6, medium ≥ 4, low ≥ 2, else minimal); the base
weight table fixes indemnification = 8.5, intellectual-property = 8.0,
non-compete = 7.5, and 3.0 for any type missing from the table. -/
theorem clauseRiskScoring (clause : ExtractedClause) :
    (analyzeClauseRisk clause).riskScore =
      pyRound 2 (min (clauseRiskWeight clause.clauseType
        + (clause.riskIndicators.length : ℚ) * (1/2)) 10 * clause.confidence) ∧
    (analyzeClauseRisk clause).riskLevel =
      calculateRiskLevel (min (clauseRiskWeight clause.clauseType
        + (clause.riskIndicators.length : ℚ) * (1/2)) 10 * clause.confidence) ∧
    clauseRiskWeight ClauseType.indemnification = 17/2 ∧
    clauseRiskWeight ClauseType.intellectualProperty = 8 ∧
    clauseRiskWeight ClauseType.nonCompete = 15/2 ∧
    clauseRiskWeight ClauseType.unknown = 3 ∧
    clauseRiskWeight ClauseType.jurisdiction = 3 ∧
    (∀ x : ℚ, calculateRiskLevel x =
      if 8 ≤ x then RiskLevel.critical
      else if 6 ≤ x then RiskLevel.high
      else if 4 ≤ x then RiskLevel.medium
      else if 2 ≤ x then RiskLevel.low
      else RiskLevel.minimal) := by
  refine ⟨rfl, rfl, ?_, ?_, ?_, ?_, ?_, fun x => rfl⟩ <;> with_unfolding_all decide

/-! ## Precedent ranking (`CaseRankingService`, `CaseLibraryService`) -/

/-- Python truthiness of an optional string (`None` and `""` are
falsy). -/
def pyTruthyStr : Option (List Char) → Bool
  | none => false
  | some s => !s.isEmpty

/-- A `CaseSearchResult` as consumed by the ranking code.  The age of
`decision_date` is carried as `(datetime.now() - decision_date).days`
(`none` when `decision_date` is `None`). -/
structure CaseSearchResult where
  caseName : List Char
  jurisdiction : Option (List Char)
  decisionDateDaysOld : Option Int
  relevanceScore : ℚ
  deriving DecidableEq, Repr

/-- The document context handed to the ranker (only its `jurisdiction`
attribute is read). -/
structure DocumentCtx where
  jurisdiction : Option (List Char)
  deriving DecidableEq, Repr

/-- The score accumulated by the loop body of
`CaseRankingService.rank_cases_by_relevance`: the raw relevance score,
`+10` for a practice-area substring match on the case name, `+5` when
the decision is younger than 5 years, and `+8` when the document's
jurisdiction (lowercased) occurs as a substring of the candidate's
jurisdiction (lowercased). -/
def caseScore (practiceArea : Option (List Char)) (document : Option DocumentCtx)
    (c : CaseSearchResult) : ℚ :=
  let score := c.relevanceScore
  let score :=
    if pyTruthyStr practiceArea &&
        isSubstring (pyLower (practiceArea.getD [])) (pyLower c.caseName) then
      score + 10
    else score
  let score :=
    match c.decisionDateDaysOld with
    | some d => if (d : ℚ) / 365 < 5 then score + 5 else score
    | none => score
  let score :=
    match document with
    | some doc =>
      if pyTruthyStr doc.jurisdiction && pyTruthyStr c.jurisdiction &&
          isSubstring (pyLower (doc.jurisdiction.getD []))
            (pyLower (c.jurisdiction.getD [])) then
        score + 8
      else score
    | none => score
  score

/-- A ranked entry (`{"case": ..., "final_score": ..., "rank": ...}`). -/
structure RankedCase where
  kase : CaseSearchResult
  finalScore : ℚ
  rank : Nat
  deriving DecidableEq, Repr

/-- `ranked.sort(key=lambda x: x["final_score"], reverse=True)` keeps
`a` before `b` exactly when `b`'s score is at most `a`'s. -/
def rankGE (a b : RankedCase) : Prop := b.finalScore ≤ a.finalScore

instance : DecidableRel rankGE := fun a b =>
  inferInstanceAs (Decidable (b.finalScore ≤ a.finalScore))

instance : IsTotal RankedCase rankGE :=
  ⟨fun a b => (le_total b.finalScore a.finalScore).imp id id⟩

instance : IsTrans RankedCase rankGE :=
  ⟨fun _ _ _ hab hbc => le_trans hbc hab⟩

/-- `for i, item in enumerate(ranked): item["rank"] = i + 1`, with the
first rank `n`. -/
def assignRanksFrom (n : Nat) : List RankedCase → List RankedCase
  | [] => []
  | x :: xs => { x with rank := n } :: assignRanksFrom (n + 1) xs

/-- `CaseRankingService.rank_cases_by_relevance`: score each case,
sort stably by final score descending (Python's `list.sort` with
`reverse=True` is stable), then assign 1-indexed ranks. -/
def rankCasesByRelevance (cases : List CaseSearchResult)
    (document : Option DocumentCtx) (practiceArea : Option (List Char)) :
    List RankedCase :=
  let ranked := cases.map fun c =>
    { kase := c, finalScore := pyRound 2 (caseScore practiceArea document c), rank := 0 }
  assignRanksFrom 1 (ranked.insertionSort rankGE)

/-- `CaseLibraryService._jurisdictions_match`: the "related" relation
of the claim (exact match, both contain `"federal"`, or one is a
substring of the other). -/
def jurisdictionsRelated (j1 j2 : List Char) : Bool :=
  let a := pyLower j1
  let b := pyLower j2
  a == b ||
    (isSubstring "federal".data a && isSubstring "federal".data b) ||
    isSubstring a b || isSubstring b a

/-- C4 as stated is false at a concrete input: for a document with
jurisdiction `"federal courts"` and a candidate with jurisdiction
`"federal"` (raw relevance 0, no other boosts), the two jurisdictions
are "related" in the claim's sense (both contain `"federal"`), so the
claim's formula awards `+8`; but the code only tests whether the
document's jurisdiction is a substring of the candidate's, which fails
here, so the final score stays `0`. -/
theorem ranking_jurisdiction_claim_false :
    jurisdictionsRelated "federal courts".data "federal".data = true ∧
    (rankCasesByRelevance
        [{ caseName := "Smith v. Jones".data, jurisdiction := some "federal".data
           decisionDateDaysOld := none, relevanceScore := 0 }]
        (some { jurisdiction := some "federal courts".data }) none).map
      (fun r => r.finalScore) = [0] := by
  constructor <;> with_unfolding_all decide

theorem assignRanksFrom_map_core (n : Nat) (l : List RankedCase) :
    (assignRanksFrom n l).map (fun r => (r.kase, r.finalScore))
      = l.map (fun r => (r.kase, r.finalScore)) := by
  induction l generalizing n with
  | nil => rfl
  | cons x xs ih => simp [assignRanksFrom, ih]

theorem assignRanksFrom_map_rank (n : Nat) (l : List RankedCase) :
    (assignRanksFrom n l).map (fun r => r.rank) = List.range' n l.length := by
  induction l generalizing n with
  | nil => rfl
  | cons x xs ih => simp [assignRanksFrom, ih, List.range']

theorem filter_score_orderedInsert (q : ℚ) (x : RankedCase) (l : List RankedCase) :
    (l.orderedInsert rankGE x).filter (fun r => r.finalScore = q)
      = if x.finalScore = q then x :: l.filter (fun r => r.finalScore = q)
        else l.filter (fun r => r.finalScore = q) := by
  induction l with
  | nil =>
    by_cases hxq : x.finalScore = q <;>
      simp [List.orderedInsert, List.filter_cons, hxq]
  | cons y ys ih =>
    by_cases hr : rankGE x y
    · rw [List.orderedInsert, if_pos hr]
      by_cases hxq : x.finalScore = q <;>
        simp [List.filter_cons, hxq]
    · rw [List.orderedInsert, if_neg hr, List.filter_cons, ih]
      by_cases hxq : x.finalScore = q
      · have hy : ¬ (y.finalScore = q) := by
          intro hyq
          exact hr (le_of_eq (hyq.trans hxq.symm))
        simp [List.filter_cons, hxq, hy]
      · by_cases hyq : y.finalScore = q <;>
          simp [List.filter_cons, hxq, hyq]

theorem filter_score_insertionSort (q : ℚ) (l : List RankedCase) :
    (l.insertionSort rankGE).filter (fun r => r.finalScore = q)
      = l.filter (fun r => r.finalScore = q) := by
  induction l with
  | nil => rfl
  | cons x xs ih =>
    rw [List.insertionSort, filter_score_orderedInsert, ih, List.filter_cons]
    by_cases hxq : x.finalScore = q <;> simp [hxq]

theorem assignRanksFrom_map_score (n : Nat) (l : List RankedCase) :
    (assignRanksFrom n l).map (fun r => r.finalScore)
      = l.map (fun r => r.finalScore) := by
  induction l generalizing n with
  | nil => rfl
  | cons x xs ih => simp [assignRanksFrom, ih]

theorem assignRanksFrom_filter_kase (q : ℚ) (n : Nat) (l : List RankedCase) :
    (((assignRanksFrom n l).filter (fun r => r.finalScore = q)).map fun r => r.kase)
      = (l.filter (fun r => r.finalScore = q)).map (fun r => r.kase) := by
  induction l generalizing n with
  | nil => rfl
  | cons x xs ih =>
    simp only [assignRanksFrom, List.filter_cons]
    by_cases hxq : x.finalScore = q <;> simp [hxq, ih]

/-- C4 (amended): ranking starts from each candidate's externally
supplied relevance score, adds the +10 practice-area and +5 recency
boosts as claimed, but adds +8 only when the document's jurisdiction,
lowercased, occurs as a substring of the candidate's jurisdiction,
lowercased (a one-directional test, not the symmetric "related"
relation); the final score is rounded to two decimals; the result is
sorted descending by final score, the sort is stable (candidates with
equal final scores appear in input order), and ranks are assigned
1-indexed after sorting. -/
theorem rankCasesByRelevance_spec (cases : List CaseSearchResult)
    (document : Option DocumentCtx) (practiceArea : Option (List Char)) :
    (∀ r ∈ rankCasesByRelevance cases document practiceArea,
        r.finalScore = pyRound 2 (caseScore practiceArea document r.kase)) ∧
    (rankCasesByRelevance cases document practiceArea).Pairwise
      (fun a b => b.finalScore ≤ a.finalScore) ∧
    (∀ q : ℚ,
      (((rankCasesByRelevance cases document practiceArea).filter
          (fun r => r.finalScore = q)).map fun r => r.kase)
        = cases.filter (fun c => pyRound 2 (caseScore practiceArea document c) = q)) ∧
    (rankCasesByRelevance cases document practiceArea).map (fun r => r.rank)
      = List.range' 1 cases.length := by
  have hscored :
      rankCasesByRelevance cases document practiceArea
        = assignRanksFrom 1 ((cases.map fun c =>
            ({ kase := c, finalScore := pyRound 2 (caseScore practiceArea document c),
               rank := 0 } : RankedCase)).insertionSort rankGE) := rfl
  refine ⟨?_, ?_, ?_, ?_⟩
  · intro r hr
    rw [hscored] at hr
    have hcore : ((r.kase, r.finalScore) : CaseSearchResult × ℚ)
        ∈ (assignRanksFrom 1 ((cases.map fun c =>
            ({ kase := c, finalScore := pyRound 2 (caseScore practiceArea document c),
               rank := 0 } : RankedCase)).insertionSort rankGE)).map
          (fun r => (r.kase, r.finalScore)) :=
      List.mem_map.mpr ⟨r, hr, rfl⟩
    rw [assignRanksFrom_map_core] at hcore
    rcases List.mem_map.mp hcore with ⟨s, hs, hseq⟩
    rw [List.mem_insertionSort] at hs
    rcases List.mem_map.mp hs with ⟨c, _, rfl⟩
    have h1 : r.kase = c := congrArg Prod.fst hseq.symm
    have h2 : r.finalScore = pyRound 2 (caseScore practiceArea document c) :=
      congrArg Prod.snd hseq.symm
    rw [h2, h1]
  · rw [hscored]
    have hsorted := List.sorted_insertionSort rankGE (cases.map fun c =>
      ({ kase := c, finalScore := pyRound 2 (caseScore practiceArea document c),
         rank := 0 } : RankedCase))
    have hmap := assignRanksFrom_map_score 1 ((cases.map fun c =>
      ({ kase := c, finalScore := pyRound 2 (caseScore practiceArea document c),
         rank := 0 } : RankedCase)).insertionSort rankGE)
    have h1 : ((assignRanksFrom 1 ((cases.map fun c =>
        ({ kase := c, finalScore := pyRound 2 (caseScore practiceArea document c),
           rank := 0 } : RankedCase)).insertionSort rankGE)).map
          (fun r => r.finalScore)).Pairwise (fun a b => b ≤ a) := by
      rw [hmap, List.pairwise_map]
      exact hsorted
    rw [List.pairwise_map] at h1
    exact h1
  · intro q
    rw [hscored, assignRanksFrom_filter_kase, filter_score_insertionSort,
      List.filter_map]
    rw [List.map_map]
    have : ((fun r : RankedCase => r.kase) ∘ fun c =>
        ({ kase := c, finalScore := pyRound 2 (caseScore practiceArea document c),
           rank := 0 } : RankedCase)) = id := rfl
    rw [this, List.map_id]
    rfl
  · rw [hscored, assignRanksFrom_map_rank, List.length_insertionSort,
      List.length_map]

/-- A recent decision (100 days old) with raw score 2: boosted to 7. -/
def tieCaseA : CaseSearchResult :=
  { caseName := "Smith v. Jones".data, jurisdiction := some "california".data
    decisionDateDaysOld := some 100, relevanceScore := 2 }

/-- An undated decision with raw score 7: stays at 7, tying `tieCaseA`. -/
def tieCaseB : CaseSearchResult :=
  { caseName := "Doe v. Roe".data, jurisdiction := some "texas".data
    decisionDateDaysOld := none, relevanceScore := 7 }

/-- Witness instantiating `rankCasesByRelevance_spec` on a concrete
two-candidate tie (both final scores are 7, so the stable sort keeps
the input order and ranks them 1 and 2). -/
theorem rankCasesByRelevance_spec_witness :
    (({ kase := tieCaseA, finalScore := 7, rank := 1 } : RankedCase).finalScore
      = pyRound 2 (caseScore none none
          ({ kase := tieCaseA, finalScore := 7, rank := 1 } : RankedCase).kase)) ∧
    ((((rankCasesByRelevance [tieCaseA, tieCaseB] none none).filter
        (fun r => r.finalScore = 7)).map fun r => r.kase)
      = [tieCaseA, tieCaseB].filter (fun c => pyRound 2 (caseScore none none c) = 7)) ∧
    (rankCasesByRelevance [tieCaseA, tieCaseB] none none).map (fun r => r.rank)
      = List.range' 1 2 :=
  ⟨(rankCasesByRelevance_spec [tieCaseA, tieCaseB] none none).1
      { kase := tieCaseA, finalScore := 7, rank := 1 } (by with_unfolding_all decide),
   (rankCasesByRelevance_spec [tieCaseA, tieCaseB] none none).2.2.1 7,
   (rankCasesByRelevance_spec [tieCaseA, tieCaseB] none none).2.2.2⟩

/-- A `CasePrecedent` row as consumed by
`CaseRankingService.calculate_precedent_strength`. -/
structure CasePrecedentRec where
  court : Option (List Char)
  jurisdiction : Option (List Char)
  decisionDateDaysOld : Option Int
  precedentValue : Option (List Char)
  deriving DecidableEq, Repr

/-- The `if case.court:` block of `calculate_precedent_strength`
(higher court ⇒ stronger precedent). -/
def strengthAfterCourt (c : CasePrecedentRec) (strength : ℚ) : ℚ :=
  if pyTruthyStr c.court then
    let court := c.court.getD []
    if isSubstring "Supreme".data court then strength + 3
    else if isSubstring "Circuit".data court || isSubstring "Appeal".data court then
      strength + 2
    else if isSubstring "District".data court then strength + 1
    else strength
  else strength

/-- The jurisdiction-match block of `calculate_precedent_strength`. -/
def strengthAfterJurisdiction (c : CasePrecedentRec)
    (targetJurisdiction : Option (List Char)) (strength : ℚ) : ℚ :=
  if pyTruthyStr targetJurisdiction && pyTruthyStr c.jurisdiction then
    if pyLower (c.jurisdiction.getD []) == pyLower (targetJurisdiction.getD []) then
      strength + 2
    else strength
  else strength

/-- The recency block of `calculate_precedent_strength`. -/
def strengthAfterRecency (c : CasePrecedentRec) (strength : ℚ) : ℚ :=
  if c.decisionDateDaysOld.isSome then
    if ((c.decisionDateDaysOld.getD 0 : ℤ) : ℚ) / 365 < 5 then strength + 1 else strength
  else strength

/-- The published/precedential block of `calculate_precedent_strength`. -/
def strengthAfterPublished (c : CasePrecedentRec) (strength : ℚ) : ℚ :=
  if pyTruthyStr c.precedentValue &&
      isSubstring "published".data (pyLower (c.precedentValue.getD [])) then
    strength + 1
  else strength

/-- `CaseRankingService.calculate_precedent_strength`: base 5.0, +3.0
for a supreme court, +2.0 circuit/appeal, +1.0 district, +2.0 exact
(case-insensitive) jurisdiction match, +1.0 when decided within 5
years, +1.0 for a published precedential decision; clamped to 10.0. -/
def calculatePrecedentStrength (c : CasePrecedentRec)
    (targetJurisdiction : Option (List Char)) : ℚ :=
  min (strengthAfterPublished c
    (strengthAfterRecency c
      (strengthAfterJurisdiction c targetJurisdiction
        (strengthAfterCourt c 5)))) 10

theorem le_strengthAfterCourt (c : CasePrecedentRec) (s : ℚ) :
    s ≤ strengthAfterCourt c s := by
  unfold strengthAfterCourt
  dsimp only
  split_ifs <;> linarith

theorem le_strengthAfterJurisdiction (c : CasePrecedentRec)
    (target : Option (List Char)) (s : ℚ) :
    s ≤ strengthAfterJurisdiction c target s := by
  unfold strengthAfterJurisdiction
  split_ifs <;> linarith

theorem le_strengthAfterRecency (c : CasePrecedentRec) (s : ℚ) :
    s ≤ strengthAfterRecency c s := by
  unfold strengthAfterRecency
  split_ifs <;> linarith

theorem le_strengthAfterPublished (c : CasePrecedentRec) (s : ℚ) :
    s ≤ strengthAfterPublished c s := by
  unfold strengthAfterPublished
  split_ifs <;> linarith

/-- C10: for every case precedent and every optional target
jurisdiction, the precedent strength lies in `[5.0, 10.0]` — the
computation starts from base 5.0, only adds non-negative bonuses, and
clamps at 10.0, so despite the declared 0–10 range it never falls
below 5.0. -/
theorem calculatePrecedentStrength_range (c : CasePrecedentRec)
    (target : Option (List Char)) :
    5 ≤ calculatePrecedentStrength c target ∧
      calculatePrecedentStrength c target ≤ 10 := by
  unfold calculatePrecedentStrength
  refine ⟨le_min ?_ (by norm_num), min_le_right _ _⟩
  calc (5:ℚ) ≤ strengthAfterCourt c 5 := le_strengthAfterCourt c 5
    _ ≤ strengthAfterJurisdiction c target (strengthAfterCourt c 5) :=
        le_strengthAfterJurisdiction c target _
    _ ≤ strengthAfterRecency c
          (strengthAfterJurisdiction c target (strengthAfterCourt c 5)) :=
        le_strengthAfterRecency c _
    _ ≤ strengthAfterPublished c (strengthAfterRecency c
          (strengthAfterJurisdiction c target (strengthAfterCourt c 5))) :=
        le_strengthAfterPublished c _

/-! ## Settlement estimation (`PredictiveAnalyticsService`)

`_calculate_settlement_statistics` sorts the settlement amounts and
computes linear-interpolation percentiles, mean, and sample standard
deviation.  The standard deviation is `√(sample variance)`, which is
irrational in general; the embedding carries its square
(`stdDevSq` = the sample variance), and the claim-amount adjustment —
which multiplies every statistic, the standard deviation included, by
the adjustment ratio — accordingly multiplies `stdDevSq` by the square
of the (positive) ratio. -/

/-- Python `min(l)` for non-empty `l`. -/
def pyMinList (l : List ℚ) : ℚ :=
  match l with
  | [] => 0
  | x :: xs => xs.foldl min x

/-- Python `max(l)` for non-empty `l`. -/
def pyMaxList (l : List ℚ) : ℚ :=
  match l with
  | [] => 0
  | x :: xs => xs.foldl max x

/-- The local `percentile(p)` helper: `k = (n-1)·p`, `f = int(k)`
(truncation, which equals the floor since `k ≥ 0` at every call site),
`c = k - f`, linear interpolation between `sorted[f]` and
`sorted[f+1]` when `f + 1 < n`. -/
def pyPercentileGet (sorted : List ℚ) (p : ℚ) : ℚ :=
  let n := sorted.length
  let k : ℚ := ((n - 1 : ℕ) : ℚ) * p
  let f : ℕ := (⌊k⌋).toNat
  let c : ℚ := k - (f : ℚ)
  if f + 1 < n then
    sorted.getD f 0 + c * (sorted.getD (f + 1) 0 - sorted.getD f 0)
  else sorted.getD f 0

theorem intToNat_zero : Int.toNat 0 = 0 := rfl

theorem intToNat_one : Int.toNat 1 = 1 := rfl

theorem intToNat_two : Int.toNat 2 = 2 := rfl

theorem intToNat_three : Int.toNat 3 = 3 := rfl

/-- The statistics dictionary of `_calculate_settlement_statistics`
(`stdDevSq` is the square of its `std_dev` entry). -/
structure SettlementStats where
  statMin : ℚ
  p10 : ℚ
  p25 : ℚ
  median : ℚ
  p75 : ℚ
  p90 : ℚ
  statMax : ℚ
  mean : ℚ
  stdDevSq : ℚ
  deriving DecidableEq, Repr

/-- `PredictiveAnalyticsService._calculate_settlement_statistics`. -/
def calculateSettlementStatistics (settlements : List ℚ) : SettlementStats :=
  let sorted := settlements.insertionSort (· ≤ ·)
  let n := sorted.length
  let mean := (sorted.foldl (· + ·) 0) / (n : ℚ)
  { statMin := pyMinList sorted
    p10 := pyPercentileGet sorted (10/100)
    p25 := pyPercentileGet sorted (25/100)
    median := pyPercentileGet sorted (50/100)
    p75 := pyPercentileGet sorted (75/100)
    p90 := pyPercentileGet sorted (90/100)
    statMax := pyMaxList sorted
    mean := mean
    stdDevSq :=
      if 1 < n then ((sorted.map (fun x => (x - mean) ^ 2)).foldl (· + ·) 0) / ((n : ℚ) - 1)
      else 0 }

/-- `PredictiveAnalyticsService._adjust_settlement_for_claim`:
`typical_ratio = 0.55`, `implied_claim = median / 0.55`,
`adjustment_ratio = claim_amount / implied_claim`, and every entry of
the statistics dictionary is multiplied by the ratio (`std_dev`
included, hence `stdDevSq` by its square). -/
def adjustSettlementForClaim (stats : SettlementStats) (claimAmount : ℚ) : SettlementStats :=
  let typicalRatio : ℚ := 55/100
  let impliedClaim := stats.median / typicalRatio
  if 0 < claimAmount then
    let ratio := claimAmount / impliedClaim
    { statMin := stats.statMin * ratio
      p10 := stats.p10 * ratio
      p25 := stats.p25 * ratio
      median := stats.median * ratio
      p75 := stats.p75 * ratio
      p90 := stats.p90 * ratio
      statMax := stats.statMax * ratio
      mean := stats.mean * ratio
      stdDevSq := stats.stdDevSq * ratio ^ 2 }
  else stats

/-- Rescaling a statistics dictionary by a factor, as the spec words
it ("rescale every statistic by `claimAmount / (median / 0.55)`"). -/
def specScaleStats (r : ℚ) (stats : SettlementStats) : SettlementStats :=
  { statMin := stats.statMin * r
    p10 := stats.p10 * r
    p25 := stats.p25 * r
    median := stats.median * r
    p75 := stats.p75 * r
    p90 := stats.p90 * r
    statMax := stats.statMax * r
    mean := stats.mean * r
    stdDevSq := stats.stdDevSq * r ^ 2 }

theorem pyPercentileGet_pos (s : List ℚ) (hne : s ≠ []) (hpos : ∀ a ∈ s, 0 < a)
    (p : ℚ) (hp0 : 0 ≤ p) (hp1 : p ≤ 1) : 0 < pyPercentileGet s p := by
  unfold pyPercentileGet
  dsimp only
  have hn : 0 < s.length := List.length_pos.mpr hne
  have hk0 : 0 ≤ ((s.length - 1 : ℕ) : ℚ) * p := by positivity
  have hfloor0 : 0 ≤ ⌊((s.length - 1 : ℕ) : ℚ) * p⌋ := Int.floor_nonneg.mpr hk0
  have hcast : ((⌊((s.length - 1 : ℕ) : ℚ) * p⌋.toNat : ℕ) : ℚ)
      = (⌊((s.length - 1 : ℕ) : ℚ) * p⌋ : ℚ) := by
    exact_mod_cast congrArg Int.cast (Int.toNat_of_nonneg hfloor0)
  have hc0 : 0 ≤ ((s.length - 1 : ℕ) : ℚ) * p - ((⌊((s.length - 1 : ℕ) : ℚ) * p⌋.toNat : ℕ) : ℚ) := by
    rw [hcast]
    have := Int.floor_le (((s.length - 1 : ℕ) : ℚ) * p)
    linarith
  have hc1 : ((s.length - 1 : ℕ) : ℚ) * p - ((⌊((s.length - 1 : ℕ) : ℚ) * p⌋.toNat : ℕ) : ℚ) < 1 := by
    rw [hcast]
    have := Int.lt_floor_add_one (((s.length - 1 : ℕ) : ℚ) * p)
    linarith
  have hflt : ⌊((s.length - 1 : ℕ) : ℚ) * p⌋.toNat < s.length := by
    have hkle : ((s.length - 1 : ℕ) : ℚ) * p ≤ ((s.length - 1 : ℕ) : ℚ) := by
      nlinarith [Nat.cast_nonneg (α := ℚ) (s.length - 1)]
    have h1 : ⌊((s.length - 1 : ℕ) : ℚ) * p⌋ ≤ ((s.length - 1 : ℕ) : ℤ) := by
      have := Int.floor_le_floor hkle
      simpa using this
    omega
  have hmemf : 0 < s.getD ⌊((s.length - 1 : ℕ) : ℚ) * p⌋.toNat 0 := by
    rw [List.getD_eq_getElem s 0 hflt]
    exact hpos _ (List.getElem_mem hflt)
  split
  · rename_i hf1
    have hmemf1 : 0 < s.getD (⌊((s.length - 1 : ℕ) : ℚ) * p⌋.toNat + 1) 0 := by
      rw [List.getD_eq_getElem s 0 hf1]
      exact hpos _ (List.getElem_mem hf1)
    nlinarith
  · exact hmemf

/-- C8: settlement statistics use linear-interpolation percentiles
plus mean and sample standard deviation — on
`[100k, 150k, 200k, 250k, 300k]` the median is `200k`, p25 is `150k`,
p75 is `250k`, p10 is `120k`, p90 is `280k`, the mean is `200k` and
the sample variance (squared standard deviation) is `6.25·10⁹` — and
for every non-empty population of positive amounts the median is
positive and supplying a positive `claimAmount` rescales every
statistic by the factor `claimAmount / (median / 0.55)`. -/
theorem settlementStatistics_spec (xs : List ℚ) (hne : xs ≠ [])
    (hpos : ∀ a ∈ xs, 0 < a) (claim : ℚ) (hclaim : 0 < claim) :
    (calculateSettlementStatistics [100000, 150000, 200000, 250000, 300000]).median
        = 200000 ∧
    (calculateSettlementStatistics [100000, 150000, 200000, 250000, 300000]).p25
        = 150000 ∧
    (calculateSettlementStatistics [100000, 150000, 200000, 250000, 300000]).p75
        = 250000 ∧
    (calculateSettlementStatistics [100000, 150000, 200000, 250000, 300000]).p10
        = 120000 ∧
    (calculateSettlementStatistics [100000, 150000, 200000, 250000, 300000]).p90
        = 280000 ∧
    (calculateSettlementStatistics [100000, 150000, 200000, 250000, 300000]).mean
        = 200000 ∧
    (calculateSettlementStatistics [100000, 150000, 200000, 250000, 300000]).stdDevSq
        = 6250000000 ∧
    0 < (calculateSettlementStatistics xs).median ∧
    adjustSettlementForClaim (calculateSettlementStatistics xs) claim
      = specScaleStats
          (claim / ((calculateSettlementStatistics xs).median / (55/100)))
          (calculateSettlementStatistics xs) := by
  refine ⟨?_, ?_, ?_, ?_, ?_, ?_, ?_, ?_, ?_⟩
  · norm_num [calculateSettlementStatistics, pyPercentileGet, List.insertionSort,
      List.orderedInsert, intToNat_zero, intToNat_one, intToNat_two, intToNat_three]
  · norm_num [calculateSettlementStatistics, pyPercentileGet, List.insertionSort,
      List.orderedInsert, intToNat_zero, intToNat_one, intToNat_two, intToNat_three]
  · norm_num [calculateSettlementStatistics, pyPercentileGet, List.insertionSort,
      List.orderedInsert, intToNat_zero, intToNat_one, intToNat_two, intToNat_three]
  · norm_num [calculateSettlementStatistics, pyPercentileGet, List.insertionSort,
      List.orderedInsert, intToNat_zero, intToNat_one, intToNat_two, intToNat_three]
  · norm_num [calculateSettlementStatistics, pyPercentileGet, List.insertionSort,
      List.orderedInsert, intToNat_zero, intToNat_one, intToNat_two, intToNat_three]
  · norm_num [calculateSettlementStatistics, pyPercentileGet, List.insertionSort,
      List.orderedInsert, intToNat_zero, intToNat_one, intToNat_two, intToNat_three]
  · norm_num [calculateSettlementStatistics, pyPercentileGet, pyMinList, pyMaxList,
      List.insertionSort, List.orderedInsert,
      intToNat_zero, intToNat_one, intToNat_two, intToNat_three]
  · unfold calculateSettlementStatistics
    dsimp only
    apply pyPercentileGet_pos
    · intro h
      apply hne
      have := List.perm_insertionSort (fun a b : ℚ => a ≤ b) xs
      rw [h] at this
      exact this.symm.eq_nil
    · intro a ha
      exact hpos a ((List.mem_insertionSort _).mp ha)
    · norm_num
    · norm_num
  · unfold adjustSettlementForClaim
    rw [if_pos hclaim]
    rfl

/-- Witness instantiating `settlementStatistics_spec` on the
scenario-4 amounts with claim amount 550 000. -/
theorem settlementStatistics_spec_witness :
    0 < (calculateSettlementStatistics
          [100000, 150000, 200000, 250000, 300000]).median ∧
    adjustSettlementForClaim
        (calculateSettlementStatistics [100000, 150000, 200000, 250000, 300000]) 550000
      = specScaleStats
          (550000 / ((calculateSettlementStatistics
              [100000, 150000, 200000, 250000, 300000]).median / (55/100)))
          (calculateSettlementStatistics [100000, 150000, 200000, 250000, 300000]) :=
  ⟨(settlementStatistics_spec [100000, 150000, 200000, 250000, 300000]
      (by simp) (by norm_num) 550000 (by norm_num)).2.2.2.2.2.2.2.1,
   (settlementStatistics_spec [100000, 150000, 200000, 250000, 300000]
      (by simp) (by norm_num) 550000 (by norm_num)).2.2.2.2.2.2.2.2⟩

/-! ## Citation parsing (`LegalCitationParser`)

The case-citation pattern `(\d+)\s+([A-Z][A-Za-z.0-9]+)\s+(\d+)(?:,?\s+(\d+))?`,
the year pattern `\((\d{4})\)`, the court pattern
`\(([A-Za-z0-9][A-Za-z0-9.\s]+?)\s+(\d{4})\)` and the two statute
patterns are embedded as explicit matchers with Python's scanning and
backtracking priorities (greedy groups try longest first, lazy groups
shortest first).  The reporter dictionaries map abbreviations to full
reporter names; only the keys are ever consulted, so the embedding
keeps the key lists. -/

/-- `[A-Z]`. -/
def isUpperAZ (c : Char) : Bool := 'A' ≤ c && c ≤ 'Z'

/-- The class `[A-Za-z.0-9]` of the reporter group. -/
def isReporterChar (c : Char) : Bool :=
  ('A' ≤ c && c ≤ 'Z') || ('a' ≤ c && c ≤ 'z') || c = '.' || ('0' ≤ c && c ≤ '9')

/-- The class `[A-Za-z0-9]` opening the court group. -/
def isCourtAlnum (c : Char) : Bool :=
  ('A' ≤ c && c ≤ 'Z') || ('a' ≤ c && c ≤ 'z') || ('0' ≤ c && c ≤ '9')

/-- The class `[A-Za-z0-9.\s]` continuing the court group. -/
def isCourtClassChar (c : Char) : Bool :=
  isCourtAlnum c || c = '.' || pyIsSpace c

/-- Keys of `LegalCitationParser.FEDERAL_REPORTERS`. -/
def federalReporters : List String :=
  ["U.S.", "S.Ct.", "L.Ed.", "F.", "F.2d", "F.3d", "F.4th",
   "F.Supp.", "F.Supp.2d", "F.Supp.3d"]

/-- Keys of `LegalCitationParser.STATE_REPORTERS`. -/
def stateReporters : List String :=
  ["Cal.", "Cal.2d", "Cal.3d", "Cal.4th", "N.Y.", "N.Y.2d", "Tex.",
   "Fla.", "Ill.", "P.", "P.2d", "P.3d", "A.", "A.2d", "A.3d",
   "N.E.", "N.E.2d", "N.E.3d", "S.E.", "S.E.2d", "S.W.", "S.W.2d", "S.W.3d"]

/-- `self.all_reporters = {**FEDERAL_REPORTERS, **STATE_REPORTERS}`. -/
def allReporters : List String := federalReporters ++ stateReporters

/-- The comma-free variant of the pinpoint group: `\s+(\d+)`. -/
def pinNoComma (s : List Char) : Option (List Char) × Nat :=
  let ws := s.takeWhile pyIsSpace
  if ws = [] then (none, 0)
  else
    let ds := (s.drop ws.length).takeWhile pyIsDigit
    if ds = [] then (none, 0)
    else (some ds, ws.length + ds.length)

/-- The optional pinpoint group `(?:,?\s+(\d+))?`: the greedy `,?`
consumes a comma first when present; on failure of the remainder the
comma-free retry starts with `\s+` at the comma and fails too.
Returns the captured group and the characters consumed. -/
def pinOpt : List Char → Option (List Char) × Nat
  | [] => pinNoComma []
  | c :: t =>
    if c = ',' then
      let ws := t.takeWhile pyIsSpace
      if ws = [] then (none, 0)
      else
        let ds := (t.drop ws.length).takeWhile pyIsDigit
        if ds = [] then (none, 0)
        else (some ds, 1 + ws.length + ds.length)
    else pinNoComma (c :: t)

/-- The part of the case pattern after the reporter group:
`\s+(\d+)(?:,?\s+(\d+))?`.  Returns page, pinpoint, and characters
consumed. -/
def repContinuation (rest : List Char) : Option (List Char × Option (List Char) × Nat) :=
  let ws2 := rest.takeWhile pyIsSpace
  if ws2 = [] then none
  else
    let page := (rest.drop ws2.length).takeWhile pyIsDigit
    if page = [] then none
    else
      let pin := pinOpt ((rest.drop ws2.length).drop page.length)
      some (page, pin.1, ws2.length + page.length + pin.2)

/-- Backtracking over the greedy reporter run `[A-Za-z.0-9]+`: try a
run of `L` characters after the initial capital, longest first.
Returns reporter, page, pinpoint, and characters consumed from the
initial capital on. -/
def tryRepLens (c0 : Char) (s3 : List Char) :
    Nat → Option (List Char × List Char × Option (List Char) × Nat)
  | 0 => none
  | L + 1 =>
    match repContinuation (s3.drop (L + 1)) with
    | some r =>
      some (c0 :: s3.take (L + 1), r.1, r.2.1, (1 + (L + 1)) + r.2.2)
    | none => tryRepLens c0 s3 L

/-- Attempt `CASE_CITATION_PATTERN` at the head of `s`.  Returns
`(volume, reporter, page, pinpoint, consumed)`. -/
def matchCaseAt (s : List Char) :
    Option (List Char × List Char × List Char × Option (List Char) × Nat) :=
  let vol := s.takeWhile pyIsDigit
  if vol = [] then none
  else
    let s1 := s.drop vol.length
    let ws1 := s1.takeWhile pyIsSpace
    if ws1 = [] then none
    else
      match s1.drop ws1.length with
      | [] => none
      | c0 :: s3 =>
        if isUpperAZ c0 then
          match tryRepLens c0 s3 (s3.takeWhile isReporterChar).length with
          | some m =>
            some (vol, m.1, m.2.1, m.2.2.1, vol.length + ws1.length + m.2.2.2)
          | none => none
        else none

/-- `re.search(CASE_CITATION_PATTERN, text)`: first match position.
Returns the groups and the match start. -/
def searchCaseCitation : Nat → List Char → Nat →
    Option ((List Char × List Char × List Char × Option (List Char) × Nat) × Nat)
  | 0, _, _ => none
  | fuel + 1, s, pos =>
    match matchCaseAt s with
    | some m => some (m, pos)
    | none =>
      match s with
      | [] => none
      | _ :: t => searchCaseCitation fuel t (pos + 1)

/-- `(\d{4})\)` after an opening `(`. -/
def yearAfterParen : List Char → Option (List Char)
  | d1 :: d2 :: d3 :: d4 :: r0 :: _ =>
    if r0 = ')' && (pyIsDigit d1 && pyIsDigit d2 && pyIsDigit d3 && pyIsDigit d4) then
      some [d1, d2, d3, d4]
    else none
  | _ => none

/-- `re.search(YEAR_PATTERN, text)`: first `\((\d{4})\)`. -/
def searchYear : List Char → Option (List Char)
  | [] => none
  | c :: t =>
    if c = '(' then
      match yearAfterParen t with
      | some y => some y
      | none => searchYear t
    else searchYear t

/-- The tail `\s+(\d{4})\)` of the court pattern. -/
def courtTailCheck (s : List Char) : Option (List Char) :=
  let ws := s.takeWhile pyIsSpace
  if ws = [] then none
  else
    match s.drop ws.length with
    | d1 :: d2 :: d3 :: d4 :: ')' :: _ =>
      if pyIsDigit d1 && pyIsDigit d2 && pyIsDigit d3 && pyIsDigit d4 then
        some [d1, d2, d3, d4]
      else none
    | _ => none

/-- Lazy growth of `[A-Za-z0-9.\s]+?` (shortest first), checking the
court pattern's tail after each character.  `acc` is the reversed
group so far. -/
def courtGrow : List Char → List Char → Option (List Char × List Char)
  | acc, c :: t =>
    if isCourtClassChar c then
      match courtTailCheck t with
      | some year => some ((c :: acc).reverse, year)
      | none => courtGrow (c :: acc) t
    else none
  | _, [] => none

/-- The court pattern after an opening `(`: `[A-Za-z0-9]` then the
lazy class run then `\s+(\d{4})\)`. -/
def courtAfterParen : List Char → Option (List Char × List Char)
  | c0 :: rest => if isCourtAlnum c0 then courtGrow [c0] rest else none
  | [] => none

/-- `re.search(COURT_PATTERN, text)`: first position whose `(` starts
a full court-pattern match.  Returns `(court, year)`. -/
def searchCourt : List Char → Option (List Char × List Char)
  | [] => none
  | c :: t =>
    if c = '(' then
      match courtAfterParen t with
      | some r => some r
      | none => searchCourt t
    else searchCourt t

/-- `CitationType`. -/
inductive CitationType where
  | federalCase
  | stateCase
  | statute
  | regulation
  | constitutional
  | unknown
  deriving DecidableEq, BEq, Repr

/-- The `ParsedCitation` dataclass. -/
structure ParsedCitation where
  rawCitation : List Char
  citationType : CitationType
  volume : Option (List Char) := none
  reporter : Option (List Char) := none
  page : Option (List Char) := none
  year : Option (List Char) := none
  court : Option (List Char) := none
  caseName : Option (List Char) := none
  jurisdiction : Option (List Char) := none
  pinpoint : Option (List Char) := none
  isValid : Bool := true
  confidence : ℚ := 0
  deriving DecidableEq, Repr

/-- `LegalCitationParser._normalize_reporter`: `re.sub(r"\s+", "", ·)`. -/
def normalizeReporter (reporter : List Char) : List Char :=
  reporter.filter (fun c => !pyIsSpace c)

/-- `LegalCitationParser._extract_case_name`. -/
def extractCaseName (citationText : List Char) (citationStart : Nat) :
    Option (List Char) :=
  if 0 < citationStart then
    let beforeCitation := pyStrip (citationText.take citationStart)
    let caseName := pyStrip (beforeCitation.reverse.dropWhile (· = ',')).reverse
    if caseName = [] then none else some caseName
  else none

/-- `LegalCitationParser._determine_jurisdiction`. -/
def determineJurisdiction (reporter : List Char) (court : Option (List Char)) :
    Option (List Char) :=
  if reporter = "U.S.".data then some "federal-supreme".data
  else if reporter ∈ ["F.".data, "F.2d".data, "F.3d".data, "F.4th".data] then
    some "federal-circuit".data
  else if reporter ∈ ["F.Supp.".data, "F.Supp.2d".data, "F.Supp.3d".data] then
    some "federal-district".data
  else if "Cal".data.isPrefixOf reporter then some "california".data
  else if "N.Y".data.isPrefixOf reporter then some "new-york".data
  else if "Tex".data.isPrefixOf reporter then some "texas".data
  else if "Fla".data.isPrefixOf reporter then some "florida".data
  else if "Ill".data.isPrefixOf reporter then some "illinois".data
  else
    match court with
    | some c => some ((pyLower c).map fun ch => if ch = ' ' then '-' else ch)
    | none => none

/-- `LegalCitationParser._parse_case_citation`. -/
def parseCaseCitation (citationText : List Char) : Option ParsedCitation :=
  match searchCaseCitation (citationText.length + 1) citationText 0 with
  | none => none
  | some (m, matchStart) =>
    let volume := m.1
    let reporter := m.2.1
    let page := m.2.2.1
    let pinpoint := m.2.2.2.1
    if reporter ∉ allReporters.map String.data then
      let reporterNormalized := normalizeReporter reporter
      if reporterNormalized ∉ allReporters.map String.data then
        some { rawCitation := citationText, citationType := CitationType.unknown
               volume := some volume, reporter := some reporter, page := some page
               isValid := false, confidence := 3/10 }
      else parseCaseCitationRest citationText matchStart volume reporterNormalized
        page pinpoint
    else parseCaseCitationRest citationText matchStart volume reporter page pinpoint

where
  /-- The remainder of `_parse_case_citation` once the reporter token
  is resolved. -/
  parseCaseCitationRest (citationText : List Char) (matchStart : Nat)
      (volume reporter page : List Char) (pinpoint : Option (List Char)) :
      Option ParsedCitation :=
    let citationType :=
      if reporter ∈ federalReporters.map String.data then CitationType.federalCase
      else CitationType.stateCase
    let courtYear : Option (List Char) × Option (List Char) :=
      match searchCourt citationText with
      | some r => (some r.1, some r.2)
      | none =>
        match searchYear citationText with
        | some y => (none, some y)
        | none => (none, none)
    some { rawCitation := citationText
           citationType := citationType
           volume := some volume
           reporter := some reporter
           page := some page
           year := courtYear.2
           court := courtYear.1
           caseName := extractCaseName citationText matchStart
           jurisdiction := determineJurisdiction reporter courtYear.1
           pinpoint := pinpoint
           isValid := true
           confidence := 95/100 }

/-- Generic `re.search` scan: try the matcher at every position, left
to right. -/
def scanFor (f : List Char → Option α) : Nat → List Char → Option α
  | 0, _ => none
  | fuel + 1, s =>
    match f s with
    | some r => some r
    | none =>
      match s with
      | [] => none
      | _ :: t => scanFor f fuel t

/-- The U.S. Code pattern of `_parse_statute`,
`(\d+)\s+U\.S\.C\.\s+ยง\s*(\d+)`, at one position (the source file's
section sign is the mojibake byte pair `ยง`).  Returns title and
section. -/
def uscAt (s : List Char) : Option (List Char × List Char) :=
  let title := s.takeWhile pyIsDigit
  if title = [] then none
  else
    let s1 := s.drop title.length
    let ws1 := s1.takeWhile pyIsSpace
    if ws1 = [] then none
    else
      let s2 := s1.drop ws1.length
      if "U.S.C.".data.isPrefixOf s2 then
        let s3 := s2.drop 6
        let ws2 := s3.takeWhile pyIsSpace
        if ws2 = [] then none
        else
          let s4 := s3.drop ws2.length
          if "ยง".data.isPrefixOf s4 then
            let s5 := s4.drop 2
            let sec := (s5.drop (s5.takeWhile pyIsSpace).length).takeWhile pyIsDigit
            if sec = [] then none else some (title, sec)
          else none
      else none

/-- The class `[a-z.]` of the state-statute pattern. -/
def isLowerDot (c : Char) : Bool := ('a' ≤ c && c ≤ 'z') || c = '.'

/-- The state-statute pattern of `_parse_statute`,
`([A-Z][a-z.]+)\s+(?:Code|Stat\.)\s+(?:Ann\.\s+)?ยง\s*(\d+)`, at one
position.  Returns state and section. -/
def stateStatuteAt : List Char → Option (List Char × List Char)
  | [] => none
  | c0 :: s1 =>
    if isUpperAZ c0 then
      let run := s1.takeWhile isLowerDot
      if run = [] then none
      else
        let s2 := s1.drop run.length
        let ws1 := s2.takeWhile pyIsSpace
        if ws1 = [] then none
        else
          let s3 := s2.drop ws1.length
          let afterKw : Option (List Char) :=
            if "Code".data.isPrefixOf s3 then some (s3.drop 4)
            else if "Stat.".data.isPrefixOf s3 then some (s3.drop 5)
            else none
          match afterKw with
          | none => none
          | some s4 =>
            let ws2 := s4.takeWhile pyIsSpace
            if ws2 = [] then none
            else
              let s5 := s4.drop ws2.length
              let tryMark : List Char → Option (List Char) := fun u =>
                if "ยง".data.isPrefixOf u then
                  let u1 := u.drop 2
                  let sec := (u1.drop (u1.takeWhile pyIsSpace).length).takeWhile pyIsDigit
                  if sec = [] then none else some sec
                else none
              let withAnn : Option (List Char) :=
                if "Ann.".data.isPrefixOf s5 then
                  let s6 := s5.drop 4
                  let ws3 := s6.takeWhile pyIsSpace
                  if ws3 = [] then none else tryMark (s6.drop ws3.length)
                else none
              match withAnn with
              | some sec => some (c0 :: run, sec)
              | none =>
                match tryMark s5 with
                | some sec => some (c0 :: run, sec)
                | none => none
    else none

/-- `LegalCitationParser._parse_statute`. -/
def parseStatute (citationText : List Char) : Option ParsedCitation :=
  match scanFor uscAt (citationText.length + 1) citationText with
  | some r =>
    some { rawCitation := citationText, citationType := CitationType.statute
           volume := some r.1, page := some r.2
           jurisdiction := some "federal".data
           isValid := true, confidence := 9/10 }
  | none =>
    match scanFor stateStatuteAt (citationText.length + 1) citationText with
    | some r =>
      some { rawCitation := citationText, citationType := CitationType.statute
             page := some r.2
             jurisdiction := some (pyLower r.1)
             isValid := true, confidence := 85/100 }
    | none => none

/-- The fallback `ParsedCitation` of `parse_citation` for an
unparseable input. -/
def unknownCitation (citationText : List Char) : ParsedCitation :=
  { rawCitation := citationText, citationType := CitationType.unknown
    isValid := false, confidence := 0 }

/-- `LegalCitationParser.parse_citation`: strip, try the case parser
(kept only when valid), then the statute parser, else the unknown
fallback.  The invalid `confidence = 0.3` citation built inside
`_parse_case_citation` is discarded here because `parse_citation` only
returns it when `is_valid` holds. -/
def parseCitation (citationText : List Char) : ParsedCitation :=
  let text := pyStrip citationText
  match parseCaseCitation text with
  | some p =>
    if p.isValid then p
    else
      match parseStatute text with
      | some q => if q.isValid then q else unknownCitation text
      | none => unknownCitation text
  | none =>
    match parseStatute text with
    | some q => if q.isValid then q else unknownCitation text
    | none => unknownCitation text

/-- Python `f"{x}"` of an optional string (`None` renders as
`"None"`). -/
def fmtOpt (o : Option (List Char)) : List Char :=
  match o with
  | some s => s
  | none => "None".data

/-- `" ".join(parts)`. -/
def joinSpace (l : List (List Char)) : List Char :=
  (l.intersperse " ".data).flatten

/-- `LegalCitationParser._format_bluebook`. -/
def formatBluebook (c : ParsedCitation) : List Char :=
  if c.citationType = CitationType.federalCase ∨ c.citationType = CitationType.stateCase then
    let parts : List (List Char) :=
      [fmtOpt c.volume ++ " ".data ++ fmtOpt c.reporter ++ " ".data ++ fmtOpt c.page]
    let parts := parts ++ (if pyTruthyStr c.pinpoint then [fmtOpt c.pinpoint] else [])
    let parts := parts ++
      (if pyTruthyStr c.court && pyTruthyStr c.year then
        ["(".data ++ fmtOpt c.court ++ " ".data ++ fmtOpt c.year ++ ")".data]
      else if pyTruthyStr c.year then
        ["(".data ++ fmtOpt c.year ++ ")".data]
      else [])
    joinSpace parts
  else c.rawCitation

/-- `LegalCitationParser.format_citation`. -/
def formatCitation (c : ParsedCitation) (style : List Char) : List Char :=
  if style = "bluebook".data then formatBluebook c else c.rawCitation

/-! ### C9: unrecognized reporter tokens -/

/-- C9 as stated is false at the input `"410 X.Y.Z. 113 (1973)"`: the
text matches the case-citation pattern with the unrecognized reporter
token `"X.Y.Z."` (unchanged by whitespace normalization) and is not a
statute, and `_parse_case_citation` does build an invalid citation
with confidence `0.3` — but `parse_citation` discards any citation
that is not valid and returns its own fallback, marked invalid with
confidence `0.0`, not `0.3`. -/
theorem parse_invalid_confidence_claim_false :
    ((parseCaseCitation (pyStrip "410 X.Y.Z. 113 (1973)".data)).map
        (fun p => (p.isValid, p.confidence, p.reporter))) =
      some (false, 3/10, some "X.Y.Z.".data) ∧
    parseStatute (pyStrip "410 X.Y.Z. 113 (1973)".data) = none ∧
    (parseCitation "410 X.Y.Z. 113 (1973)".data).isValid = false ∧
    (parseCitation "410 X.Y.Z. 113 (1973)".data).confidence = 0 ∧
    (0 : ℚ) ≠ 3/10 := by
  refine ⟨?_, ?_, ?_, ?_, by norm_num⟩ <;> with_unfolding_all decide

/-- C9 (amended): for every input on which the case-citation
sub-parser produces an invalid citation (which it does, with
confidence 0.3, exactly when the text matches the case-citation
pattern but the reporter token is unrecognized even after the
whitespace-normalized retry) and the statute sub-parser does not
match, `Parse` returns the unknown-citation fallback: marked invalid
with confidence `0.0` — the inner 0.3 citation is discarded. -/
theorem parse_unrecognizedReporter (text : List Char)
    (hcase : ∃ p, parseCaseCitation (pyStrip text) = some p ∧
      p.isValid = false ∧ p.confidence = 3/10)
    (hstat : parseStatute (pyStrip text) = none) :
    parseCitation text = unknownCitation (pyStrip text) ∧
    (parseCitation text).isValid = false ∧
    (parseCitation text).confidence = 0 := by
  obtain ⟨p, hp, hpv, _⟩ := hcase
  have h1 : parseCitation text = unknownCitation (pyStrip text) := by
    unfold parseCitation
    dsimp only
    rw [hp]
    simp only [hpv, hstat, Bool.false_eq_true, if_false]
  exact ⟨h1, by rw [h1]; rfl, by rw [h1]; rfl⟩

/-- Witness instantiating `parse_unrecognizedReporter` at the
concrete input `"410 X.Y.Z. 113 (1973)"`. -/
theorem parse_unrecognizedReporter_witness :
    parseCitation "410 X.Y.Z. 113 (1973)".data
        = unknownCitation (pyStrip "410 X.Y.Z. 113 (1973)".data) ∧
    (parseCitation "410 X.Y.Z. 113 (1973)".data).isValid = false ∧
    (parseCitation "410 X.Y.Z. 113 (1973)".data).confidence = 0 :=
  parse_unrecognizedReporter "410 X.Y.Z. 113 (1973)".data
    (by
      refine ⟨parseCaseCitation (pyStrip "410 X.Y.Z. 113 (1973)".data)
        |>.getD (unknownCitation []), ?_, ?_, ?_⟩ <;> with_unfolding_all decide)
    (by with_unfolding_all decide)

/-! ### C7: the round-trip through parse and Bluebook format

A well-formed case citation is taken to be the canonical form
`VOLUME REPORTER PAGE (YEAR)` with a recognized reporter token,
exactly as in "410 U.S. 113 (1973)". -/

/-- The canonical well-formed case citation `"V R P (Y)"`. -/
def canonicalCitation (v r p y : List Char) : List Char :=
  v ++ [' '] ++ r ++ [' '] ++ p ++ [' ', '('] ++ y ++ [')']

theorem digit_not_space {c : Char} (h : pyIsDigit c = true) : pyIsSpace c = false := by
  unfold pyIsDigit at h
  simp only [Bool.and_eq_true, decide_eq_true_eq] at h
  unfold pyIsSpace
  simp only [Bool.or_eq_false_iff, decide_eq_false_iff_not]
  refine ⟨⟨⟨⟨⟨?_, ?_⟩, ?_⟩, ?_⟩, ?_⟩, ?_⟩ <;> (rintro rfl; revert h; decide)

theorem digit_ne_lparen {c : Char} (h : pyIsDigit c = true) : c ≠ '(' := by
  unfold pyIsDigit at h
  simp only [Bool.and_eq_true, decide_eq_true_eq] at h
  rintro rfl
  revert h
  decide

theorem digit_isCourtAlnum {c : Char} (h : pyIsDigit c = true) : isCourtAlnum c = true := by
  unfold pyIsDigit at h
  unfold isCourtAlnum
  simp only [Bool.or_eq_true]
  right
  exact h

theorem digit_isCourtClassChar {c : Char} (h : pyIsDigit c = true) :
    isCourtClassChar c = true := by
  unfold isCourtClassChar
  simp only [Bool.or_eq_true]
  left
  left
  exact digit_isCourtAlnum h

theorem takeWhile_append_not {q : Char → Bool} :
    ∀ (l₁ : List Char) (x : Char) (l₂ : List Char),
      (∀ c ∈ l₁, q c = true) → q x = false →
      (l₁ ++ x :: l₂).takeWhile q = l₁ := by
  intro l₁
  induction l₁ with
  | nil =>
    intro x l₂ _ hx
    simp [List.takeWhile_cons, hx]
  | cons a l ih =>
    intro x l₂ h1 hx
    have ha : q a = true := h1 a (List.mem_cons_self a l)
    simp only [List.cons_append, List.takeWhile_cons, ha, if_true]
    rw [ih x l₂ (fun c hc => h1 c (List.mem_cons_of_mem a hc)) hx]

theorem takeWhile_nil_of_head {q : Char → Bool} (x : Char) (l : List Char)
    (hx : q x = false) : (x :: l).takeWhile q = [] := by
  simp [List.takeWhile_cons, hx]

/-- Facts about every reporter abbreviation in the table, checked by
computation: at least two characters, an initial capital, every
character in the reporter class, no whitespace, no parenthesis, and no
digit in the first position. -/
theorem reporter_table_facts :
    ∀ r ∈ allReporters.map String.data,
      2 ≤ r.length ∧
      isUpperAZ (r.headD 'A') = true ∧
      (∀ c ∈ r, isReporterChar c = true) ∧
      (∀ c ∈ r, pyIsSpace c = false) ∧
      (∀ c ∈ r, c ≠ '(') := by
  decide

theorem searchCourt_append_no_paren (A : List Char) (B : List Char)
    (hA : ∀ c ∈ A, c ≠ '(') :
    searchCourt (A ++ B) = searchCourt B := by
  induction A with
  | nil => rfl
  | cons a A ih =>
    have ha : a ≠ '(' := hA a (List.mem_cons_self a A)
    simp only [List.cons_append, searchCourt, if_neg ha]
    exact ih (fun c hc => hA c (List.mem_cons_of_mem a hc))

theorem searchCourt_no_paren (A : List Char) (hA : ∀ c ∈ A, c ≠ '(') :
    searchCourt A = none := by
  have := searchCourt_append_no_paren A [] hA
  simpa using this

theorem searchYear_append_no_paren (A : List Char) (B : List Char)
    (hA : ∀ c ∈ A, c ≠ '(') :
    searchYear (A ++ B) = searchYear B := by
  induction A with
  | nil => rfl
  | cons a A ih =>
    have ha : a ≠ '(' := hA a (List.mem_cons_self a A)
    simp only [List.cons_append, searchYear, if_neg ha]
    exact ih (fun c hc => hA c (List.mem_cons_of_mem a hc))

theorem pinOpt_space_lparen (X : List Char) :
    pinOpt (' ' :: '(' :: X) = (none, 0) := by
  unfold pinOpt
  dsimp only
  rw [if_neg (by decide)]
  unfold pinNoComma
  dsimp only
  rw [show (' ' :: '(' :: X).takeWhile pyIsSpace = [' '] from by
    rw [List.takeWhile_cons, if_pos (by decide), takeWhile_nil_of_head '(' X (by decide)]]
  rw [if_neg (by simp)]
  rw [show (' ' :: '(' :: X).drop ([' '] : List Char).length = '(' :: X from rfl]
  rw [takeWhile_nil_of_head '(' X (by decide)]
  simp

theorem repContinuation_eval (p Y : List Char) (hp : p ≠ [])
    (hpd : ∀ c ∈ p, pyIsDigit c = true) :
    repContinuation (' ' :: (p ++ ' ' :: '(' :: Y)) = some (p, none, 1 + p.length) := by
  unfold repContinuation
  dsimp only
  rw [show (' ' :: (p ++ ' ' :: '(' :: Y)).takeWhile pyIsSpace = [' '] from by
    rcases p with _ | ⟨p0, pt⟩
    · exact absurd rfl hp
    · rw [List.takeWhile_cons, if_pos (by decide), List.cons_append,
        takeWhile_nil_of_head p0 _ (digit_not_space (hpd p0 (List.mem_cons_self p0 pt)))]]
  rw [if_neg (by simp)]
  rw [show (' ' :: (p ++ ' ' :: '(' :: Y)).drop ([' '] : List Char).length
      = p ++ ' ' :: '(' :: Y from rfl]
  rw [takeWhile_append_not p ' ' _ hpd (by decide)]
  rw [if_neg hp, List.drop_left, pinOpt_space_lparen]
  simp

theorem tryRepLens_eval (r0 r1 : Char) (rt p Y : List Char) (hp : p ≠ [])
    (hpd : ∀ c ∈ p, pyIsDigit c = true) :
    tryRepLens r0 ((r1 :: rt) ++ ' ' :: (p ++ ' ' :: '(' :: Y)) (rt.length + 1)
      = some (r0 :: r1 :: rt, p, none, (1 + (rt.length + 1)) + (1 + p.length)) := by
  unfold tryRepLens
  rw [show ((r1 :: rt) ++ ' ' :: (p ++ ' ' :: '(' :: Y)).drop (rt.length + 1)
      = ' ' :: (p ++ ' ' :: '(' :: Y) from by
    have h := List.drop_left (r1 :: rt) (' ' :: (p ++ ' ' :: '(' :: Y))
    simpa using h]
  rw [repContinuation_eval p Y hp hpd]
  dsimp only
  rw [show ((r1 :: rt) ++ ' ' :: (p ++ ' ' :: '(' :: Y)).take (rt.length + 1)
      = r1 :: rt from by
    have h := List.take_left (r1 :: rt) (' ' :: (p ++ ' ' :: '(' :: Y))
    simpa using h]

theorem matchCaseAt_canonical (v r p y : List Char)
    (hv : v ≠ []) (hvd : ∀ c ∈ v, pyIsDigit c = true)
    (hr : r ∈ allReporters.map String.data)
    (hp : p ≠ []) (hpd : ∀ c ∈ p, pyIsDigit c = true) :
    ∃ n, matchCaseAt (canonicalCitation v r p y) = some (v, r, p, none, n) := by
  obtain ⟨hrlen, hrhead, hrclass, hrnospace, _⟩ := reporter_table_facts r hr
  rcases r with _ | ⟨r0, rs⟩
  · simp at hrlen
  rcases rs with _ | ⟨r1, rt⟩
  · simp at hrlen
  have hshape : canonicalCitation v (r0 :: r1 :: rt) p y
      = v ++ ' ' :: ((r0 :: r1 :: rt) ++ ' ' :: (p ++ ' ' :: '(' :: (y ++ [')']))) := by
    simp [canonicalCitation]
  rw [hshape]
  unfold matchCaseAt
  dsimp only
  rw [takeWhile_append_not v ' ' _ hvd (by decide)]
  rw [if_neg hv, List.drop_left]
  rw [show (' ' :: ((r0 :: r1 :: rt) ++ ' ' :: (p ++ ' ' :: '(' :: (y ++ [')'])))).takeWhile
        pyIsSpace = [' '] from by
    rw [List.takeWhile_cons, if_pos (by decide), List.cons_append,
      takeWhile_nil_of_head r0 _ (hrnospace r0 (List.mem_cons_self r0 _))]]
  rw [if_neg (by simp)]
  rw [show (' ' :: ((r0 :: r1 :: rt) ++ ' ' :: (p ++ ' ' :: '(' :: (y ++ [')'])))).drop
        ([' '] : List Char).length
      = (r0 :: r1 :: rt) ++ ' ' :: (p ++ ' ' :: '(' :: (y ++ [')'])) from rfl]
  rw [List.cons_append]
  dsimp only
  have hr0 : isUpperAZ r0 = true := by simpa using hrhead
  rw [hr0, if_pos rfl]
  rw [takeWhile_append_not (r1 :: rt) ' ' _
    (fun c hc => hrclass c (List.mem_cons_of_mem r0 hc)) (by decide)]
  rw [show ((r1 : Char) :: rt).length = rt.length + 1 from by simp]
  rw [tryRepLens_eval r0 r1 rt p (y ++ [')']) hp hpd]
  exact ⟨_, rfl⟩

theorem dropWhile_eq_self_of_head {q : Char → Bool} (a : Char) (l : List Char)
    (h : q a = false) : (a :: l).dropWhile q = a :: l := by
  simp [List.dropWhile_cons, h]

theorem pyStrip_canonical (v r p y : List Char) (hv : v ≠ [])
    (hvd : ∀ c ∈ v, pyIsDigit c = true) :
    pyStrip (canonicalCitation v r p y) = canonicalCitation v r p y := by
  rcases v with _ | ⟨v0, vt⟩
  · exact absurd rfl hv
  have hd : pyIsSpace v0 = false :=
    digit_not_space (hvd v0 (List.mem_cons_self v0 vt))
  have hshape : canonicalCitation (v0 :: vt) r p y
      = v0 :: (vt ++ ' ' :: (r ++ ' ' :: (p ++ ' ' :: '(' :: (y ++ [')'])))) := by
    simp [canonicalCitation]
  rw [hshape]
  unfold pyStrip
  rw [dropWhile_eq_self_of_head v0 _ hd]
  have hshape2 : v0 :: (vt ++ ' ' :: (r ++ ' ' :: (p ++ ' ' :: '(' :: (y ++ [')']))))
      = (v0 :: (vt ++ ' ' :: (r ++ ' ' :: (p ++ ' ' :: '(' :: y)))) ++ [')'] := by
    simp
  rw [hshape2, List.reverse_append]
  simp only [List.reverse_cons, List.reverse_nil, List.nil_append, List.singleton_append]
  rw [dropWhile_eq_self_of_head ')' _ (by decide)]
  simp

theorem courtTailCheck_head_digit (c : Char) (t : List Char)
    (h : pyIsDigit c = true) : courtTailCheck (c :: t) = none := by
  have hns : ¬(pyIsSpace c = true) := by
    intro hcon
    rw [digit_not_space h] at hcon
    exact Bool.false_ne_true hcon
  unfold courtTailCheck
  dsimp only
  rw [List.takeWhile_cons, if_neg hns]
  simp

theorem courtTailCheck_rparen (t : List Char) : courtTailCheck (')' :: t) = none := by
  have hns : ¬(pyIsSpace ')' = true) := by decide
  unfold courtTailCheck
  dsimp only
  rw [List.takeWhile_cons, if_neg hns]
  simp

theorem courtGrow_digits_rparen (ds : List Char) :
    ∀ acc : List Char, (∀ c ∈ ds, pyIsDigit c = true) →
      courtGrow acc (ds ++ [')']) = none := by
  induction ds with
  | nil =>
    intro acc _
    simp only [List.nil_append]
    unfold courtGrow
    rw [if_neg (by decide)]
  | cons a dt ih =>
    intro acc hd
    have ha : pyIsDigit a = true := hd a (List.mem_cons_self a dt)
    have hct : courtTailCheck (dt ++ [')']) = none := by
      rcases dt with _ | ⟨b, dt2⟩
      · simpa using courtTailCheck_rparen []
      · exact courtTailCheck_head_digit b _ (hd b (by simp))
    simp only [List.cons_append]
    unfold courtGrow
    rw [digit_isCourtClassChar ha, if_pos rfl, hct]
    exact ih (a :: acc) (fun c hc => hd c (List.mem_cons_of_mem a hc))

theorem courtAfterParen_digits_rparen (y : List Char)
    (hy : ∀ c ∈ y, pyIsDigit c = true) :
    courtAfterParen (y ++ [')']) = none := by
  have hca : ¬(isCourtAlnum ')' = true) := by decide
  rcases y with _ | ⟨a, yt⟩
  · simp only [List.nil_append]
    unfold courtAfterParen
    dsimp only
    rw [if_neg hca]
  · simp only [List.cons_append]
    unfold courtAfterParen
    dsimp only
    rw [digit_isCourtAlnum (hy a (List.mem_cons_self a yt)), if_pos rfl]
    exact courtGrow_digits_rparen yt [a] (fun c hc => hy c (List.mem_cons_of_mem a hc))

theorem searchCaseCitation_succ (fuel : Nat) (s : List Char) (pos : Nat) :
    searchCaseCitation (fuel + 1) s pos
      = match matchCaseAt s with
        | some m => some (m, pos)
        | none =>
          match s with
          | [] => none
          | _ :: t => searchCaseCitation fuel t (pos + 1) := by
  rfl

theorem searchCaseCitation_succ_of_match (fuel : Nat) (s : List Char) (pos : Nat)
    (m : List Char × List Char × List Char × Option (List Char) × Nat)
    (h : matchCaseAt s = some m) :
    searchCaseCitation (fuel + 1) s pos = some (m, pos) := by
  rw [searchCaseCitation_succ, h]

theorem searchCourt_cons_lparen (t : List Char) :
    searchCourt ('(' :: t)
      = match courtAfterParen t with
        | some r => some r
        | none => searchCourt t := by
  simp only [searchCourt]
  exact if_pos trivial

theorem searchYear_cons_lparen (t : List Char) :
    searchYear ('(' :: t)
      = match yearAfterParen t with
        | some y => some y
        | none => searchYear t := by
  simp only [searchYear]
  exact if_pos trivial

/-- The `ParsedCitation` that `_parse_case_citation` builds for the
canonical citation `"V R P (Y)"` with a recognized reporter. -/
def canonicalParsed (v r p y : List Char) : ParsedCitation :=
  { rawCitation := canonicalCitation v r p y
    citationType :=
      if r ∈ federalReporters.map String.data then CitationType.federalCase
      else CitationType.stateCase
    volume := some v
    reporter := some r
    page := some p
    year := some y
    court := none
    caseName := none
    jurisdiction := determineJurisdiction r none
    pinpoint := none
    isValid := true
    confidence := 95/100 }

theorem parseCitation_canonical (v r p : List Char) (a b c d : Char)
    (hv : v ≠ []) (hvd : ∀ c0 ∈ v, pyIsDigit c0 = true)
    (hr : r ∈ allReporters.map String.data)
    (hp : p ≠ []) (hpd : ∀ c0 ∈ p, pyIsDigit c0 = true)
    (hya : pyIsDigit a = true) (hyb : pyIsDigit b = true)
    (hyc : pyIsDigit c = true) (hyd : pyIsDigit d = true) :
    parseCitation (canonicalCitation v r p [a, b, c, d])
      = canonicalParsed v r p [a, b, c, d] := by
  have hy4 : ∀ c0 ∈ [a, b, c, d], pyIsDigit c0 = true := by
    intro c0 hc0
    simp only [List.mem_cons, List.not_mem_nil, or_false] at hc0
    rcases hc0 with rfl | rfl | rfl | rfl <;> assumption
  obtain ⟨n, hm⟩ := matchCaseAt_canonical v r p [a, b, c, d] hv hvd hr hp hpd
  have hA : ∀ c0 ∈ v ++ ' ' :: (r ++ ' ' :: (p ++ [' '])), c0 ≠ '(' := by
    intro c0 hc0
    simp only [List.mem_append, List.mem_cons, List.mem_singleton,
      List.not_mem_nil, or_false] at hc0
    rcases hc0 with h1 | h1 | h1 | h1 | h1 | h1
    · exact digit_ne_lparen (hvd c0 h1)
    · subst h1; decide
    · exact (reporter_table_facts r hr).2.2.2.2 c0 h1
    · subst h1; decide
    · exact digit_ne_lparen (hpd c0 h1)
    · subst h1; decide
  have hshapeA : canonicalCitation v r p [a, b, c, d]
      = (v ++ ' ' :: (r ++ ' ' :: (p ++ [' ']))) ++ '(' :: ([a, b, c, d] ++ [')']) := by
    simp [canonicalCitation]
  have hcap : courtAfterParen ([a, b, c, d] ++ [')']) = none :=
    courtAfterParen_digits_rparen _ hy4
  have hscT : searchCourt ([a, b, c, d] ++ [')']) = none := by
    refine searchCourt_no_paren _ ?_
    intro c0 hc0
    simp only [List.mem_append, List.mem_cons, List.mem_singleton,
      List.not_mem_nil, or_false] at hc0
    rcases hc0 with (rfl | rfl | rfl | rfl) | rfl
    · exact digit_ne_lparen hya
    · exact digit_ne_lparen hyb
    · exact digit_ne_lparen hyc
    · exact digit_ne_lparen hyd
    · decide
  have hsc : searchCourt (canonicalCitation v r p [a, b, c, d]) = none := by
    rw [hshapeA, searchCourt_append_no_paren _ _ hA, searchCourt_cons_lparen, hcap]
    exact hscT
  have hyap : yearAfterParen ([a, b, c, d] ++ [')']) = some [a, b, c, d] := by
    show yearAfterParen [a, b, c, d, ')'] = some [a, b, c, d]
    unfold yearAfterParen
    simp [hya, hyb, hyc, hyd]
  have hsy : searchYear (canonicalCitation v r p [a, b, c, d]) = some [a, b, c, d] := by
    rw [hshapeA, searchYear_append_no_paren _ _ hA, searchYear_cons_lparen, hyap]
  have hcn : extractCaseName (canonicalCitation v r p [a, b, c, d]) 0 = none := rfl
  have hparse : parseCaseCitation (canonicalCitation v r p [a, b, c, d])
      = some (canonicalParsed v r p [a, b, c, d]) := by
    unfold parseCaseCitation
    rw [searchCaseCitation_succ_of_match _ _ 0 _ hm]
    dsimp only
    rw [if_neg (not_not_intro hr)]
    unfold parseCaseCitation.parseCaseCitationRest
    dsimp only
    rw [hsc]
    dsimp only
    rw [hsy]
    dsimp only
    rw [hcn]
    rfl
  unfold parseCitation
  dsimp only
  rw [pyStrip_canonical v r p [a, b, c, d] hv hvd, hparse]
  dsimp only
  exact if_pos rfl

theorem formatBluebook_canonicalParsed (v r p y : List Char) (hy : y ≠ []) :
    formatBluebook (canonicalParsed v r p y) = canonicalCitation v r p y := by
  have hyt : pyTruthyStr (some y) = true := by
    rcases y with _ | ⟨y0, yt⟩
    · exact absurd rfl hy
    · rfl
  have hcond : (canonicalParsed v r p y).citationType = CitationType.federalCase ∨
      (canonicalParsed v r p y).citationType = CitationType.stateCase := by
    unfold canonicalParsed
    by_cases hf : r ∈ federalReporters.map String.data
    · left
      dsimp only
      rw [if_pos hf]
    · right
      dsimp only
      rw [if_neg hf]
  unfold formatBluebook
  rw [if_pos hcond]
  unfold canonicalParsed
  dsimp only
  rw [hyt, show pyTruthyStr none = false from rfl]
  simp only [Bool.false_eq_true, if_false, Bool.false_and, joinSpace]
  simp [canonicalCitation, List.intersperse, fmtOpt]

/-- **C7.**  Round-trip of well-formed case citations: for the
canonical form `VOLUME REPORTER PAGE (YEAR)` — nonempty all-digit
volume and page, a reporter abbreviation from the parser's table, and
a four-digit year — parsing yields a valid citation whose volume,
reporter, page and year are exactly the four input tokens, and
formatting the parse in bluebook style reproduces the input citation
character for character.  In particular `"410 U.S. 113 (1973)"`
parses to volume `"410"`, reporter `"U.S."`, page `"113"`, year
`"1973"`, jurisdiction `"federal-supreme"`, `isValid = true`. -/
theorem citationRoundTrip (v r p : List Char) (a b c d : Char)
    (hv : v ≠ []) (hvd : ∀ c0 ∈ v, pyIsDigit c0 = true)
    (hr : r ∈ allReporters.map String.data)
    (hp : p ≠ []) (hpd : ∀ c0 ∈ p, pyIsDigit c0 = true)
    (hya : pyIsDigit a = true) (hyb : pyIsDigit b = true)
    (hyc : pyIsDigit c = true) (hyd : pyIsDigit d = true) :
    ((parseCitation (canonicalCitation v r p [a, b, c, d])).volume = some v ∧
     (parseCitation (canonicalCitation v r p [a, b, c, d])).reporter = some r ∧
     (parseCitation (canonicalCitation v r p [a, b, c, d])).page = some p ∧
     (parseCitation (canonicalCitation v r p [a, b, c, d])).year = some [a, b, c, d] ∧
     (parseCitation (canonicalCitation v r p [a, b, c, d])).isValid = true ∧
     formatCitation (parseCitation (canonicalCitation v r p [a, b, c, d])) "bluebook".data
       = canonicalCitation v r p [a, b, c, d]) ∧
    parseCitation "410 U.S. 113 (1973)".data
      = { rawCitation := "410 U.S. 113 (1973)".data
          citationType := CitationType.federalCase
          volume := some "410".data
          reporter := some "U.S.".data
          page := some "113".data
          year := some "1973".data
          jurisdiction := some "federal-supreme".data
          isValid := true
          confidence := 95/100 } := by
  have hpc := parseCitation_canonical v r p a b c d hv hvd hr hp hpd hya hyb hyc hyd
  refine ⟨⟨?_, ?_, ?_, ?_, ?_, ?_⟩, ?_⟩
  · rw [hpc]; rfl
  · rw [hpc]; rfl
  · rw [hpc]; rfl
  · rw [hpc]; rfl
  · rw [hpc]; rfl
  · rw [hpc]
    rw [show formatCitation (canonicalParsed v r p [a, b, c, d]) "bluebook".data
        = formatBluebook (canonicalParsed v r p [a, b, c, d]) from by
      unfold formatCitation
      rw [if_pos rfl]]
    exact formatBluebook_canonicalParsed v r p [a, b, c, d] (by simp)
  · with_unfolding_all decide

/-- Witness: `citationRoundTrip` instantiated at the concrete tokens
of `"410 U.S. 113 (1973)"`; the bluebook format of the parse is the
canonical citation built from them. -/
theorem citationRoundTrip_witness :
    formatCitation
        (parseCitation (canonicalCitation "410".data "U.S.".data "113".data
          ['1', '9', '7', '3'])) "bluebook".data
      = canonicalCitation "410".data "U.S.".data "113".data ['1', '9', '7', '3'] :=
  (citationRoundTrip "410".data "U.S.".data "113".data '1' '9' '7' '3'
    (by decide) (by decide) (by decide) (by decide) (by decide)
    (by decide) (by decide) (by decide) (by decide)).1.2.2.2.2.2

end LegalAI
